import Mathlib

/-!
# LifeTrack: the client-side relational views of `services/api.js` and their pages

A shallow embedding of the join, filter and sort logic of `apiService`
(`src/frontend/src/services/api.js`), of the session handling of `App.js` and `Navbar.js`,
of the fetch, delete, search, registration and chatbot handlers of the pages and of the
voice and edit modals, together with the properties the specification states about them.

Modelling conventions.

* Entities are the four record types of the data model.  Identifiers are server-assigned
  integers (`Int`); `HealthRecord.doctor_id` is nullable (`Option Int`, `none` is `null`).
* An `api.get` call is a value of `Response α`: either the decoded `response.data` or the
  rejection the `catch` block receives.  Each `apiService` function returns
  `Except String β`, where the error string is the message of the `Error` it throws.
* `===` on identifiers is equality; `Array.prototype.includes` is `includes`;
  `[...new Set(xs)]` is `spreadSet` (first occurrences, in insertion order);
  `Array.prototype.find` is `List.find?`.
* `Array.prototype.sort(compareFn)` is `sort`: a stable sort driven by `sortCompare`,
  which turns a `NaN` comparator result into `+0` as ECMAScript does.
* `new Date(s)` is the host's date parser and is a parameter `newDate`; its result is the
  time value in milliseconds, `none` standing for an invalid date (`NaN`).  Subtracting two
  dates is `dateMinus`; only the sign of the difference reaches the sort.
* A handler of a component is a function of the state it closes over and of the outcome of
  each request it awaits; it returns the state after its `setState` calls and, where the
  claims speak of requests, the requests and callbacks it performed, in order.
* Truthiness follows JavaScript: an empty string, `0`, `NaN`, `null` and `undefined` are
  falsy.  Host functions whose result the code only passes on (`JSON.parse`,
  `toLowerCase`, the conversion of a string to a number) are parameters.
-/

namespace LifeTrack

/-! ## Data model -/

/-- Doctor entity as served by `/doctors`. -/
structure Doctor where
  doctor_id : Int
  name : String
  specialization : String
  contact_number : String
  email : String
  deriving DecidableEq, Repr

/-- Health record entity as served by `/health_records`. -/
structure HealthRecord where
  record_id : Int
  user_id : Int
  doctor_id : Option Int
  diagnosis : String
  record_date : String
  file_path : Option String
  deriving DecidableEq, Repr

/-- Treatment entity as served by `/treatment`. -/
structure Treatment where
  treatment_id : Int
  record_id : Int
  medication : String
  procedure : String
  follow_up_date : String
  deriving DecidableEq, Repr

/-- Element of the list built by `getUserTreatmentHistory`: the spread treatment followed by
the four denormalised fields.  `none` is JavaScript `undefined`. -/
structure TreatmentHistoryEntry extends Treatment where
  diagnosis : Option String
  record_date : Option String
  doctor_name : String
  doctor_specialization : Option String
  deriving DecidableEq, Repr

/-- Rejection of a request as seen by a `catch` block: `error.message` and the optional
`error.response?.data?.message`. -/
structure ApiError where
  message : String
  responseMessage : Option String
  deriving DecidableEq, Repr

/-- Outcome of awaiting one `api.get`: the decoded `response.data` or the rejection. -/
abbrev Response (α : Type) := Except ApiError α

/-! ## Array primitives -/

/-- `Array.prototype.includes`: left-to-right scan for an equal element. -/
def includes {α : Type} [DecidableEq α] : List α → α → Bool
  | [], _ => false
  | y :: ys, x => decide (y = x) || includes ys x

/-- `[...new Set(xs)]`: the distinct values of `xs` in order of first insertion. -/
def spreadSet {α : Type} [DecidableEq α] (xs : List α) : List α :=
  xs.foldl (fun acc x => if includes acc x then acc else acc ++ [x]) []

/-- `SortCompare` of ECMAScript: a `NaN` result of the comparator counts as `+0`. -/
def sortCompare {α : Type} (compareFn : α → α → Option Int) (x y : α) : Int :=
  match compareFn x y with
  | some v => v
  | none => 0

/-- Insertion step of the stable sort: `a` preceded every element of the list in the
array, and stays in front of the first element it does not have to follow. -/
def sortInsert {α : Type} (compareFn : α → α → Option Int) (a : α) : List α → List α
  | [] => [a]
  | b :: l =>
    if sortCompare compareFn a b ≤ 0 then a :: b :: l
    else b :: sortInsert compareFn a l

/-- `Array.prototype.sort(compareFn)`, as a stable insertion sort.  ECMAScript requires the
sort to be stable, so for a consistent comparator (all dates valid) the result does not
depend on the algorithm the engine uses. -/
def sort {α : Type} (compareFn : α → α → Option Int) : List α → List α
  | [] => []
  | a :: l => sortInsert compareFn a (sort compareFn l)

/-- Difference `x - y` of two `Date` objects given by their time values: `NaN` as soon
as one of them is an invalid date. -/
def dateMinus (x y : Option Int) : Option Int :=
  match x, y with
  | some tx, some ty => some (tx - ty)
  | _, _ => none

/-! ## The operations of `apiService` -/

/-- `apiService.getDoctorsVisitedByUser` (api.js 70-90). -/
def getDoctorsVisitedByUser (doctors : Response (List Doctor))
    (records : Response (List HealthRecord)) (userId : Int) : Except String (List Doctor) :=
  match doctors, records with
  | .ok doctorsData, .ok recordsData =>
    let userRecords := recordsData.filter (fun record => record.user_id == userId)
    let visitedDoctorIds := spreadSet (userRecords.map (fun record => record.doctor_id))
    let visitedDoctors :=
      doctorsData.filter (fun doctor => includes visitedDoctorIds (some doctor.doctor_id))
    .ok visitedDoctors
  | _, _ => .error "Failed to fetch visited doctors"

/-- `apiService.getUserHealthRecords` (api.js 103-115). -/
def getUserHealthRecords (newDate : String → Option Int)
    (response : Response (List HealthRecord)) (userId : Int) :
    Except String (List HealthRecord) :=
  match response with
  | .ok data =>
    let userRecords := data.filter (fun record => record.user_id == userId)
    .ok (sort (fun a b => dateMinus (newDate b.record_date) (newDate a.record_date))
      userRecords)
  | .error _ => .error "Failed to fetch user health records"

/-- `apiService.getUserTreatments` (api.js 128-148). -/
def getUserTreatments (treatments : Response (List Treatment))
    (records : Response (List HealthRecord)) (userId : Int) :
    Except String (List Treatment) :=
  match treatments, records with
  | .ok treatmentsData, .ok recordsData =>
    let userRecords := recordsData.filter (fun record => record.user_id == userId)
    let userRecordIds := userRecords.map (fun record => record.record_id)
    let userTreatments :=
      treatmentsData.filter (fun treatment => includes userRecordIds treatment.record_id)
    .ok userTreatments
  | _, _ => .error "Failed to fetch user treatments"

/-- Body of the `.map` callback of `getUserTreatmentHistory` (api.js 166-177). -/
def enrichTreatment (userRecords : List HealthRecord) (doctorsData : List Doctor)
    (treatment : Treatment) : TreatmentHistoryEntry :=
  let relatedRecord := userRecords.find? (fun record => record.record_id == treatment.record_id)
  let relatedDoctorId : Option Int := relatedRecord.bind (fun record => record.doctor_id)
  let doctor := doctorsData.find? (fun doc => some doc.doctor_id == relatedDoctorId)
  { toTreatment := treatment
    diagnosis := relatedRecord.map (fun record => record.diagnosis)
    record_date := relatedRecord.map (fun record => record.record_date)
    doctor_name :=
      match doctor with
      | some d => if d.name = "" then "Unknown Doctor" else d.name
      | none => "Unknown Doctor"
    doctor_specialization := doctor.map (fun d => d.specialization) }

/-- `new Date(x)` for a possibly `undefined` string: `undefined` gives an invalid date. -/
def newDateOpt (newDate : String → Option Int) (x : Option String) : Option Int :=
  x.bind newDate

/-- `apiService.getUserTreatmentHistory` (api.js 151-186). -/
def getUserTreatmentHistory (newDate : String → Option Int)
    (treatments : Response (List Treatment)) (records : Response (List HealthRecord))
    (doctors : Response (List Doctor)) (userId : Int) :
    Except String (List TreatmentHistoryEntry) :=
  match treatments, records, doctors with
  | .ok treatmentsData, .ok recordsData, .ok doctorsData =>
    let userRecords := recordsData.filter (fun record => record.user_id == userId)
    let userRecordIds := userRecords.map (fun record => record.record_id)
    let userTreatments :=
      (treatmentsData.filter (fun treatment => includes userRecordIds treatment.record_id)).map
        (enrichTreatment userRecords doctorsData)
    .ok (sort
      (fun a b => dateMinus (newDateOpt newDate b.record_date) (newDateOpt newDate a.record_date))
      userTreatments)
  | _, _, _ => .error "Failed to fetch user treatment history"

/-! ## Lemmas on the array primitives -/

theorem includes_iff {α : Type} [DecidableEq α] (l : List α) (x : α) :
    includes l x = true ↔ x ∈ l := by
  induction l with
  | nil => simp [includes]
  | cons y ys ih =>
    simp only [includes, Bool.or_eq_true, decide_eq_true_eq, ih, List.mem_cons]
    constructor
    · rintro (h | h)
      · exact Or.inl h.symm
      · exact Or.inr h
    · rintro (h | h)
      · exact Or.inl h.symm
      · exact Or.inr h

theorem mem_foldl_spreadSet {α : Type} [DecidableEq α] (xs acc : List α) (x : α) :
    x ∈ xs.foldl (fun acc x => if includes acc x then acc else acc ++ [x]) acc ↔
      x ∈ acc ∨ x ∈ xs := by
  induction xs generalizing acc with
  | nil => simp
  | cons y ys ih =>
    rw [List.foldl_cons, ih]
    by_cases hy : includes acc y = true
    · have hmem : y ∈ acc := (includes_iff acc y).1 hy
      simp only [hy, if_true, List.mem_cons]
      constructor
      · rintro (h | h)
        · exact Or.inl h
        · exact Or.inr (Or.inr h)
      · rintro (h | h | h)
        · exact Or.inl h
        · exact Or.inl (h ▸ hmem)
        · exact Or.inr h
    · have hy' : includes acc y = false := by simpa using hy
      simp only [hy', Bool.false_eq_true, if_false, List.mem_append, List.mem_singleton,
        List.mem_cons]
      tauto

theorem mem_spreadSet {α : Type} [DecidableEq α] (xs : List α) (x : α) :
    x ∈ spreadSet xs ↔ x ∈ xs := by
  simp [spreadSet, mem_foldl_spreadSet]

/-! ## Lemmas on the sort -/

theorem sortInsert_perm {α : Type} (compareFn : α → α → Option Int) (a : α) (l : List α) :
    (sortInsert compareFn a l).Perm (a :: l) := by
  induction l with
  | nil => exact List.Perm.refl _
  | cons b l ih =>
    unfold sortInsert
    split
    · exact List.Perm.refl _
    · exact (List.Perm.cons b ih).trans (List.Perm.swap a b l)

theorem sort_perm {α : Type} (compareFn : α → α → Option Int) (l : List α) :
    (sort compareFn l).Perm l := by
  induction l with
  | nil => exact List.Perm.refl _
  | cons a l ih =>
    exact (sortInsert_perm compareFn a (sort compareFn l)).trans (List.Perm.cons a ih)

theorem mem_sort {α : Type} (compareFn : α → α → Option Int) (l : List α) (x : α) :
    x ∈ sort compareFn l ↔ x ∈ l :=
  (sort_perm compareFn l).mem_iff

/-- Order on elements with a valid date key: `a` is at least as recent as `b`. -/
def notOlder {α : Type} (key : α → Option Int) (a b : α) : Prop :=
  ∃ ta tb, key a = some ta ∧ key b = some tb ∧ tb ≤ ta

theorem notOlder_trans {α : Type} (key : α → Option Int) {a b c : α}
    (hab : notOlder key a b) (hbc : notOlder key b c) : notOlder key a c := by
  obtain ⟨ta, tb, ha, hb, h1⟩ := hab
  obtain ⟨tb', tc, hb', hc, h2⟩ := hbc
  have : tb = tb' := Option.some.inj (hb.symm.trans hb')
  subst this
  exact ⟨ta, tc, ha, hc, le_trans h2 h1⟩

theorem sortCompare_valid {α : Type} (key : α → Option Int) (a b : α) (ta tb : Int)
    (ha : key a = some ta) (hb : key b = some tb) :
    sortCompare (fun x y => dateMinus (key y) (key x)) a b = tb - ta := by
  simp [sortCompare, dateMinus, ha, hb]

theorem sortInsert_pairwise {α : Type} (key : α → Option Int) (a : α) (l : List α)
    (ha : (key a).isSome = true) (hl : ∀ x ∈ l, (key x).isSome = true)
    (hs : l.Pairwise (notOlder key)) :
    (sortInsert (fun x y => dateMinus (key y) (key x)) a l).Pairwise (notOlder key) := by
  obtain ⟨ta, hta⟩ := Option.isSome_iff_exists.1 ha
  induction l with
  | nil => simp [sortInsert]
  | cons b l ih =>
    obtain ⟨tb, htb⟩ := Option.isSome_iff_exists.1 (hl b (List.mem_cons_self b l))
    have hcmp := sortCompare_valid key a b ta tb hta htb
    have hbl : ∀ x ∈ l, notOlder key b x := (List.pairwise_cons.1 hs).1
    have hsl : l.Pairwise (notOlder key) := (List.pairwise_cons.1 hs).2
    unfold sortInsert
    split
    next hle =>
      rw [hcmp] at hle
      have hab : notOlder key a b := ⟨ta, tb, hta, htb, by omega⟩
      refine List.pairwise_cons.2 ⟨?_, hs⟩
      intro x hx
      rcases List.mem_cons.1 hx with rfl | hx
      · exact hab
      · exact notOlder_trans key hab (hbl x hx)
    next hgt =>
      rw [hcmp] at hgt
      have hba : notOlder key b a := ⟨tb, ta, htb, hta, by omega⟩
      refine List.pairwise_cons.2 ⟨?_, ih (fun x hx => hl x (List.mem_cons_of_mem b hx)) hsl⟩
      intro x hx
      rcases List.mem_cons.1 ((sortInsert_perm _ a l).mem_iff.1 hx) with rfl | hx
      · exact hba
      · exact hbl x hx

theorem sort_pairwise {α : Type} (key : α → Option Int) (l : List α)
    (hl : ∀ x ∈ l, (key x).isSome = true) :
    (sort (fun x y => dateMinus (key y) (key x)) l).Pairwise (notOlder key) := by
  induction l with
  | nil => exact List.Pairwise.nil
  | cons a l ih =>
    have hl' : ∀ x ∈ l, (key x).isSome = true := fun x hx => hl x (List.mem_cons_of_mem a hx)
    refine sortInsert_pairwise key a _ (hl a (List.mem_cons_self a l)) ?_ (ih hl')
    intro x hx
    exact hl' x ((mem_sort _ l x).1 hx)

theorem sortInsert_filter_key {α : Type} (key : α → Option Int) (t : Int) (a : α)
    (l : List α) :
    (sortInsert (fun x y => dateMinus (key y) (key x)) a l).filter
        (fun x => decide (key x = some t)) =
      (a :: l).filter (fun x => decide (key x = some t)) := by
  induction l with
  | nil => rfl
  | cons b l ih =>
    unfold sortInsert
    split
    · rfl
    next hgt =>
      rw [List.filter_cons, ih]
      by_cases hb : key b = some t
      · by_cases ha : key a = some t
        · exact absurd (by rw [sortCompare_valid key a b t t ha hb]; omega) hgt
        · simp [List.filter_cons, ha, hb]
      · simp [List.filter_cons, hb]

theorem sort_filter_key {α : Type} (key : α → Option Int) (t : Int) (l : List α) :
    (sort (fun x y => dateMinus (key y) (key x)) l).filter (fun x => decide (key x = some t)) =
      l.filter (fun x => decide (key x = some t)) := by
  induction l with
  | nil => rfl
  | cons a l ih =>
    show (sortInsert _ a (sort _ l)).filter _ = _
    rw [sortInsert_filter_key, List.filter_cons, List.filter_cons, ih]

/-! ## Lemmas on the treatment-history join -/

theorem find_of_includes (userRecords : List HealthRecord) (rid : Int)
    (h : includes (userRecords.map (fun record => record.record_id)) rid = true) :
    ∃ r, userRecords.find? (fun record => record.record_id == rid) = some r := by
  induction userRecords with
  | nil => simp [includes] at h
  | cons r rs ih =>
    by_cases hr : r.record_id = rid
    · exact ⟨r, by simp [List.find?_cons, hr]⟩
    · have h' : includes (rs.map (fun record => record.record_id)) rid = true := by
        simpa [includes, hr] using h
      obtain ⟨r', hr'⟩ := ih h'
      exact ⟨r', by simp [List.find?_cons, hr, hr']⟩

theorem getUserTreatmentHistory_ok (newDate : String → Option Int) (treatments : List Treatment)
    (records : List HealthRecord) (doctors : List Doctor) (userId : Int) :
    getUserTreatmentHistory newDate (.ok treatments) (.ok records) (.ok doctors) userId =
      .ok (sort
        (fun a b =>
          dateMinus (newDateOpt newDate b.record_date) (newDateOpt newDate a.record_date))
        ((treatments.filter (fun treatment =>
            includes ((records.filter (fun record => record.user_id == userId)).map
              (fun record => record.record_id)) treatment.record_id)).map
          (enrichTreatment (records.filter (fun record => record.user_id == userId))
            doctors))) :=
  rfl

theorem mem_history (newDate : String → Option Int) (treatments : List Treatment)
    (records : List HealthRecord) (doctors : List Doctor) (userId : Int)
    (e : TreatmentHistoryEntry)
    (he : e ∈ sort
        (fun a b =>
          dateMinus (newDateOpt newDate b.record_date) (newDateOpt newDate a.record_date))
        ((treatments.filter (fun treatment =>
            includes ((records.filter (fun record => record.user_id == userId)).map
              (fun record => record.record_id)) treatment.record_id)).map
          (enrichTreatment (records.filter (fun record => record.user_id == userId))
            doctors))) :
    ∃ t ∈ treatments, ∃ r,
      (records.filter (fun record => record.user_id == userId)).find?
          (fun record => record.record_id == t.record_id) = some r ∧
        e = enrichTreatment (records.filter (fun record => record.user_id == userId))
          doctors t := by
  rw [mem_sort] at he
  obtain ⟨t, ht, rfl⟩ := List.mem_map.1 he
  obtain ⟨htm, hinc⟩ := List.mem_filter.1 ht
  obtain ⟨r, hr⟩ := find_of_includes _ _ hinc
  exact ⟨t, htm, r, hr, rfl⟩

theorem find_userRecord (records : List HealthRecord) (userId rid : Int) (r : HealthRecord)
    (h : (records.filter (fun record => record.user_id == userId)).find?
      (fun record => record.record_id == rid) = some r) :
    r ∈ records ∧ r.user_id = userId ∧ r.record_id = rid := by
  have hmem := List.mem_of_find?_eq_some h
  have hid := List.find?_some h
  obtain ⟨hm, hu⟩ := List.mem_filter.1 hmem
  exact ⟨hm, by simpa using hu, by simpa using hid⟩

/-! ## Sample data of the specification -/

/-- Doctor with id 5 of the specification's example. -/
def sampleDoctor : Doctor :=
  { doctor_id := 5, name := "Asha", specialization := "Cardiology",
    contact_number := "100", email := "asha@x.com" }

/-- Record 10 of user 1, attended by doctor 5. -/
def sampleRecord10 : HealthRecord :=
  { record_id := 10, user_id := 1, doctor_id := some 5, diagnosis := "Flu",
    record_date := "2024-01-01", file_path := none }

/-- Record 11 of user 1, whose doctor id 99 is dangling. -/
def sampleRecord11 : HealthRecord :=
  { record_id := 11, user_id := 1, doctor_id := some 99, diagnosis := "Cold",
    record_date := "2024-02-01", file_path := none }

/-! ## Properties -/

/-- C1: with both fetches successful, `getDoctorsVisitedByUser` returns exactly the doctors
`d` for which some record has `user_id = userId` and `doctor_id = d.doctor_id`, as a
sub-list of `doctors` in the same relative order; a dangling doctor id contributes
nothing, as in the example with doctor 5 and the records 10 and 11 of user 1. -/
theorem getDoctorsVisitedByUser_join (doctors : List Doctor) (records : List HealthRecord)
    (userId : Int) :
    (∃ visited, getDoctorsVisitedByUser (.ok doctors) (.ok records) userId = .ok visited ∧
      visited = doctors.filter (fun d =>
        decide (∃ r ∈ records, r.user_id = userId ∧ r.doctor_id = some d.doctor_id)) ∧
      visited.Sublist doctors) ∧
    getDoctorsVisitedByUser (.ok [sampleDoctor]) (.ok [sampleRecord10, sampleRecord11]) 1 =
      .ok [sampleDoctor] := by
  refine ⟨⟨_, rfl, ?_, List.filter_sublist _⟩, rfl⟩
  apply List.filter_congr
  intro d _
  rw [Bool.eq_iff_iff, includes_iff, mem_spreadSet]
  simp only [List.mem_map, List.mem_filter, beq_iff_eq, decide_eq_true_eq]
  constructor
  · rintro ⟨r, ⟨hr, hu⟩, hd⟩
    exact ⟨r, hr, hu, hd⟩
  · rintro ⟨r, hr, hu, hd⟩
    exact ⟨r, ⟨hr, hu⟩, hd⟩

/-- C2: with both fetches successful, `getUserTreatments` returns exactly the treatments
`t` for which some record has `user_id = userId` and `record_id = t.record_id`, as a
sub-list of `treatments` in the same relative order. -/
theorem getUserTreatments_join (treatments : List Treatment) (records : List HealthRecord)
    (userId : Int) :
    ∃ result, getUserTreatments (.ok treatments) (.ok records) userId = .ok result ∧
      result = treatments.filter (fun t =>
        decide (∃ r ∈ records, r.user_id = userId ∧ r.record_id = t.record_id)) ∧
      result.Sublist treatments := by
  refine ⟨_, rfl, ?_, List.filter_sublist _⟩
  apply List.filter_congr
  intro t _
  rw [Bool.eq_iff_iff, includes_iff]
  simp only [List.mem_map, List.mem_filter, beq_iff_eq, decide_eq_true_eq]
  constructor
  · rintro ⟨r, ⟨hr, hu⟩, hd⟩
    exact ⟨r, hr, hu, hd⟩
  · rintro ⟨r, hr, hu, hd⟩
    exact ⟨r, ⟨hr, hu⟩, hd⟩

/-- Treatment 1 attached to record 10. -/
def sampleTreatment : Treatment :=
  { treatment_id := 1, record_id := 10, medication := "Paracetamol", procedure := "Rest",
    follow_up_date := "2024-01-15" }

/-- Treatment 2 attached to record 11. -/
def sampleTreatment11 : Treatment :=
  { treatment_id := 2, record_id := 11, medication := "Syrup", procedure := "Rest",
    follow_up_date := "2024-02-15" }

/-- A date parser defined on the two dates of the sample records (milliseconds since the
epoch) and invalid elsewhere. -/
def sampleNewDate (s : String) : Option Int :=
  if s = "2024-01-01" then some 1704067200000
  else if s = "2024-02-01" then some 1706745600000
  else none

/-- C3: every entry of the treatment history carries a `record_id` for which a health record
of the queried user exists; and when `record_id` is a key of the records collection, every
health record with that id belongs to the queried user. -/
theorem getUserTreatmentHistory_own_records (newDate : String → Option Int)
    (treatments : List Treatment) (records : List HealthRecord) (doctors : List Doctor)
    (userId : Int) :
    ∃ history,
      getUserTreatmentHistory newDate (.ok treatments) (.ok records) (.ok doctors) userId =
        .ok history ∧
      ∀ e ∈ history,
        (∃ r ∈ records, r.record_id = e.record_id ∧ r.user_id = userId) ∧
        ((records.map (fun r => r.record_id)).Nodup →
          ∀ r ∈ records, r.record_id = e.record_id → r.user_id = userId) := by
  refine ⟨_, getUserTreatmentHistory_ok newDate treatments records doctors userId, ?_⟩
  intro e he
  obtain ⟨t, _, r, hr, rfl⟩ := mem_history newDate treatments records doctors userId e he
  obtain ⟨hmem, huser, hid⟩ := find_userRecord records userId t.record_id r hr
  refine ⟨⟨r, hmem, hid, huser⟩, ?_⟩
  intro hnodup r' hr' hid'
  have hinj := List.inj_on_of_nodup_map hnodup
  have heq : r' = r := hinj hr' hmem (hid'.trans hid.symm)
  rw [heq]
  exact huser

/-- Instance of C3 on the sample data, where the record ids 10 and 11 are distinct. -/
theorem getUserTreatmentHistory_own_records_witness :
    ([sampleRecord10, sampleRecord11].map (fun r => r.record_id)).Nodup ∧
    ∃ history,
      getUserTreatmentHistory sampleNewDate (.ok [sampleTreatment])
        (.ok [sampleRecord10, sampleRecord11]) (.ok [sampleDoctor]) 1 = .ok history ∧
      ∀ e ∈ history, ∀ r ∈ [sampleRecord10, sampleRecord11],
        r.record_id = e.record_id → r.user_id = 1 := by
  refine ⟨by decide, ?_⟩
  obtain ⟨history, hok, h⟩ := getUserTreatmentHistory_own_records sampleNewDate
    [sampleTreatment] [sampleRecord10, sampleRecord11] [sampleDoctor] 1
  exact ⟨history, hok, fun e he => (h e he).2 (by decide)⟩

/-- C4: the treatment history selects the same treatments as `getUserTreatments`: dropping
`diagnosis`, `record_date`, `doctor_name` and `doctor_specialization` from each entry
gives a permutation of the list `getUserTreatments` returns. -/
theorem getUserTreatmentHistory_selects (newDate : String → Option Int)
    (treatments : List Treatment) (records : List HealthRecord) (doctors : List Doctor)
    (userId : Int) :
    ∃ history result,
      getUserTreatmentHistory newDate (.ok treatments) (.ok records) (.ok doctors) userId =
        .ok history ∧
      getUserTreatments (.ok treatments) (.ok records) userId = .ok result ∧
      (history.map TreatmentHistoryEntry.toTreatment).Perm result := by
  refine ⟨_, _, getUserTreatmentHistory_ok newDate treatments records doctors userId, rfl, ?_⟩
  refine ((sort_perm _ _).map _).trans ?_
  rw [List.map_map]
  have hid : (TreatmentHistoryEntry.toTreatment ∘
      enrichTreatment (records.filter (fun record => record.user_id == userId)) doctors) =
      id := by
    funext t
    rfl
  rw [hid, List.map_id]

/-- C5: for every entry of the treatment history the parent record is found: it is the first
health record of the queried user whose `record_id` equals the entry's, and the entry's
`diagnosis` and `record_date` are those of that record. -/
theorem getUserTreatmentHistory_parent (newDate : String → Option Int)
    (treatments : List Treatment) (records : List HealthRecord) (doctors : List Doctor)
    (userId : Int) :
    ∃ history,
      getUserTreatmentHistory newDate (.ok treatments) (.ok records) (.ok doctors) userId =
        .ok history ∧
      ∀ e ∈ history, ∃ r,
        (records.filter (fun record => decide (record.user_id = userId))).find?
          (fun record => decide (record.record_id = e.record_id)) = some r ∧
        r ∈ records ∧ r.user_id = userId ∧ r.record_id = e.record_id ∧
        e.diagnosis = some r.diagnosis ∧ e.record_date = some r.record_date := by
  refine ⟨_, getUserTreatmentHistory_ok newDate treatments records doctors userId, ?_⟩
  intro e he
  obtain ⟨t, _, r, hr, rfl⟩ := mem_history newDate treatments records doctors userId e he
  obtain ⟨hmem, huser, hid⟩ := find_userRecord records userId t.record_id r hr
  refine ⟨r, ?_, hmem, huser, hid, ?_, ?_⟩
  · exact hr
  · simp [enrichTreatment, hr]
  · simp [enrichTreatment, hr]

/-- C8: with a successful fetch, `getUserHealthRecords` returns a permutation of the fetched
records whose `user_id` equals `userId`. -/
theorem getUserHealthRecords_perm (newDate : String → Option Int)
    (records : List HealthRecord) (userId : Int) :
    ∃ result, getUserHealthRecords newDate (.ok records) userId = .ok result ∧
      result.Perm (records.filter (fun r => decide (r.user_id = userId))) := by
  refine ⟨_, rfl, ?_⟩
  exact sort_perm _ _

/-- Doctor with id 5 whose stored name is the empty string. -/
def namelessDoctor : Doctor :=
  { doctor_id := 5, name := "", specialization := "Cardiology",
    contact_number := "100", email := "anon@x.com" }

theorem enrichTreatment_doctor (userRecords : List HealthRecord) (doctors : List Doctor)
    (t : Treatment) (r : HealthRecord)
    (hr : userRecords.find? (fun record => record.record_id == t.record_id) = some r) :
    (enrichTreatment userRecords doctors t).doctor_name =
        (match doctors.find? (fun doc => some doc.doctor_id == r.doctor_id) with
          | some d => if d.name = "" then "Unknown Doctor" else d.name
          | none => "Unknown Doctor") ∧
      (enrichTreatment userRecords doctors t).doctor_specialization =
        (doctors.find? (fun doc => some doc.doctor_id == r.doctor_id)).map
          (fun d => d.specialization) := by
  simp [enrichTreatment, hr]

/-- C6, as the code has it: when the parent record's `doctor_id` is the id of some doctor of
the collection, the entry's `doctor_specialization` is the specialization of the first
doctor with that id, and its `doctor_name` is that doctor's name when the name is
non-empty and "Unknown Doctor" when the name is empty. -/
theorem getUserTreatmentHistory_doctor (newDate : String → Option Int)
    (treatments : List Treatment) (records : List HealthRecord) (doctors : List Doctor)
    (userId : Int) :
    ∃ history,
      getUserTreatmentHistory newDate (.ok treatments) (.ok records) (.ok doctors) userId =
        .ok history ∧
      ∀ e ∈ history, ∃ r,
        (records.filter (fun record => decide (record.user_id = userId))).find?
          (fun record => decide (record.record_id = e.record_id)) = some r ∧
        ((∃ d ∈ doctors, r.doctor_id = some d.doctor_id) →
          ∃ d, doctors.find? (fun doc => decide (some doc.doctor_id = r.doctor_id)) = some d ∧
            d ∈ doctors ∧ r.doctor_id = some d.doctor_id ∧
            e.doctor_specialization = some d.specialization ∧
            (d.name ≠ "" → e.doctor_name = d.name) ∧
            (d.name = "" → e.doctor_name = "Unknown Doctor")) := by
  refine ⟨_, getUserTreatmentHistory_ok newDate treatments records doctors userId, ?_⟩
  intro e he
  obtain ⟨t, _, r, hr, rfl⟩ := mem_history newDate treatments records doctors userId e he
  refine ⟨r, hr, ?_⟩
  rintro ⟨d0, hd0, hid0⟩
  obtain ⟨hname, hspec⟩ :=
    enrichTreatment_doctor (records.filter (fun record => record.user_id == userId)) doctors t
      r hr
  have hsome : (doctors.find? (fun doc => some doc.doctor_id == r.doctor_id)).isSome = true := by
    rw [List.find?_isSome]
    exact ⟨d0, hd0, by simp [hid0]⟩
  obtain ⟨d, hd⟩ := Option.isSome_iff_exists.1 hsome
  have hdid : some d.doctor_id = r.doctor_id := by
    have := List.find?_some hd
    simpa using this
  have hconv : (fun doc : Doctor => some doc.doctor_id == r.doctor_id) =
      (fun doc : Doctor => decide (some doc.doctor_id = r.doctor_id)) := by
    funext doc
    rw [Bool.eq_iff_iff]
    simp
  rw [hd] at hname hspec
  refine ⟨d, hconv ▸ hd, List.mem_of_find?_eq_some hd, hdid.symm, hspec, ?_, ?_⟩
  · intro hne
    rw [hname]
    simp [hne]
  · intro heq
    rw [hname]
    simp [heq]

/-- Instance of C6 on the sample data: the treatment of record 10 is shown with the name and
specialization of doctor 5. -/
theorem getUserTreatmentHistory_doctor_witness :
    (∃ d ∈ [sampleDoctor], sampleRecord10.doctor_id = some d.doctor_id) ∧
    ∃ history,
      getUserTreatmentHistory sampleNewDate (.ok [sampleTreatment]) (.ok [sampleRecord10])
        (.ok [sampleDoctor]) 1 = .ok history ∧
      ∀ e ∈ history, e.doctor_name = "Asha" ∧ e.doctor_specialization = some "Cardiology" := by
  refine ⟨⟨sampleDoctor, List.mem_singleton.2 rfl, rfl⟩, ?_⟩
  obtain ⟨history, hok, h⟩ := getUserTreatmentHistory_doctor sampleNewDate
    [sampleTreatment] [sampleRecord10] [sampleDoctor] 1
  refine ⟨history, hok, ?_⟩
  intro e he
  obtain ⟨r, hr, hdoc⟩ := h e he
  have hr10 : r = sampleRecord10 := by
    have hmem := (find_userRecord [sampleRecord10] 1 e.record_id r hr).1
    simpa using hmem
  subst hr10
  obtain ⟨d, _, hd, _, hspec, hname, _⟩ := hdoc ⟨sampleDoctor, List.mem_singleton.2 rfl, rfl⟩
  have hd5 : d = sampleDoctor := by simpa using hd
  subst hd5
  exact ⟨hname (by decide), hspec⟩

/-- C6 fails as stated: doctor 5 is in the collection and attends record 10, its stored name
is the empty string, and the history entry carries "Unknown Doctor" instead of that name. -/
theorem getUserTreatmentHistory_doctor_name_counterexample :
    getUserTreatmentHistory sampleNewDate (.ok [sampleTreatment]) (.ok [sampleRecord10])
        (.ok [namelessDoctor]) 1 =
      .ok [{ toTreatment := sampleTreatment, diagnosis := some "Flu",
             record_date := some "2024-01-01", doctor_name := "Unknown Doctor",
             doctor_specialization := some "Cardiology" }] ∧
    namelessDoctor ∈ [namelessDoctor] ∧
    sampleRecord10.doctor_id = some namelessDoctor.doctor_id ∧
    "Unknown Doctor" ≠ namelessDoctor.name := by
  refine ⟨rfl, List.mem_singleton.2 rfl, rfl, by decide⟩

/-- C7: the treatment history is produced (no failure) and, for every entry whose parent
record has a null `doctor_id` or a `doctor_id` matching no doctor of the collection, the
entry's `doctor_name` is "Unknown Doctor" and its `doctor_specialization` is absent. -/
theorem getUserTreatmentHistory_unknown_doctor (newDate : String → Option Int)
    (treatments : List Treatment) (records : List HealthRecord) (doctors : List Doctor)
    (userId : Int) :
    ∃ history,
      getUserTreatmentHistory newDate (.ok treatments) (.ok records) (.ok doctors) userId =
        .ok history ∧
      ∀ e ∈ history, ∃ r,
        (records.filter (fun record => decide (record.user_id = userId))).find?
          (fun record => decide (record.record_id = e.record_id)) = some r ∧
        ((r.doctor_id = none ∨ ∀ d ∈ doctors, r.doctor_id ≠ some d.doctor_id) →
          e.doctor_name = "Unknown Doctor" ∧ e.doctor_specialization = none) := by
  refine ⟨_, getUserTreatmentHistory_ok newDate treatments records doctors userId, ?_⟩
  intro e he
  obtain ⟨t, _, r, hr, rfl⟩ := mem_history newDate treatments records doctors userId e he
  refine ⟨r, hr, ?_⟩
  intro hno
  have hall : ∀ d ∈ doctors, r.doctor_id ≠ some d.doctor_id := by
    rcases hno with hnull | hall
    · intro d _ hd
      rw [hnull] at hd
      exact Option.noConfusion hd
    · exact hall
  obtain ⟨hname, hspec⟩ :=
    enrichTreatment_doctor (records.filter (fun record => record.user_id == userId)) doctors t
      r hr
  have hnone : doctors.find? (fun doc => some doc.doctor_id == r.doctor_id) = none := by
    rw [List.find?_eq_none]
    intro d hd
    have := hall d hd
    simpa using fun h => this h.symm
  rw [hnone] at hname hspec
  exact ⟨hname, hspec⟩

/-- Instance of C7 on the sample data: record 11 names doctor 99, who is not in the
collection, and its treatment is shown with the sentinel. -/
theorem getUserTreatmentHistory_unknown_doctor_witness :
    (∀ d ∈ [sampleDoctor], sampleRecord11.doctor_id ≠ some d.doctor_id) ∧
    ∃ history,
      getUserTreatmentHistory sampleNewDate (.ok [sampleTreatment11]) (.ok [sampleRecord11])
        (.ok [sampleDoctor]) 1 = .ok history ∧
      ∀ e ∈ history, e.doctor_name = "Unknown Doctor" ∧ e.doctor_specialization = none := by
  have hdangling : ∀ d ∈ [sampleDoctor], sampleRecord11.doctor_id ≠ some d.doctor_id := by
    intro d hd
    rw [List.mem_singleton.1 hd]
    decide
  refine ⟨hdangling, ?_⟩
  obtain ⟨history, hok, h⟩ := getUserTreatmentHistory_unknown_doctor sampleNewDate
    [sampleTreatment11] [sampleRecord11] [sampleDoctor] 1
  refine ⟨history, hok, ?_⟩
  intro e he
  obtain ⟨r, hr, hdoc⟩ := h e he
  have hr11 : r = sampleRecord11 := by
    have hmem := (find_userRecord [sampleRecord11] 1 e.record_id r hr).1
    simpa using hmem
  subst hr11
  exact hdoc (Or.inr hdangling)

/-- C9: when the `record_date` of every record of the queried user parses to a valid date,
the list returned by `getUserHealthRecords` is sorted by date, most recent first: every
result is at least as recent as every later one, in particular any two adjacent ones. -/
theorem getUserHealthRecords_sorted (newDate : String → Option Int)
    (records : List HealthRecord) (userId : Int)
    (hvalid : ∀ r ∈ records, r.user_id = userId → (newDate r.record_date).isSome = true) :
    ∃ result, getUserHealthRecords newDate (.ok records) userId = .ok result ∧
      (∀ (i : Nat) (a b : HealthRecord), result[i]? = some a → result[i + 1]? = some b →
        ∃ ta tb, newDate a.record_date = some ta ∧ newDate b.record_date = some tb ∧
          tb ≤ ta) ∧
      result.Pairwise (fun a b =>
        ∃ ta tb, newDate a.record_date = some ta ∧ newDate b.record_date = some tb ∧
          tb ≤ ta) := by
  have hsorted := sort_pairwise (fun r : HealthRecord => newDate r.record_date)
    (records.filter (fun record => record.user_id == userId))
    (by
      intro r hr
      obtain ⟨hm, hu⟩ := List.mem_filter.1 hr
      exact hvalid r hm (by simpa using hu))
  refine ⟨_, rfl, ?_, hsorted⟩
  intro i a b hi hj
  obtain ⟨hi', rfl⟩ := List.getElem?_eq_some.1 hi
  obtain ⟨hj', rfl⟩ := List.getElem?_eq_some.1 hj
  exact (List.pairwise_iff_getElem.1 hsorted) i (i + 1) hi' hj' (Nat.lt_succ_self i)

/-- Instance of C9 on the sample data: record 11 (February) comes before record 10
(January). -/
theorem getUserHealthRecords_sorted_witness :
    (∀ r ∈ [sampleRecord10, sampleRecord11], r.user_id = 1 →
      (sampleNewDate r.record_date).isSome = true) ∧
    ∃ result,
      getUserHealthRecords sampleNewDate (.ok [sampleRecord10, sampleRecord11]) 1 =
        .ok result ∧
      result = [sampleRecord11, sampleRecord10] ∧
      result.Pairwise (fun a b =>
        ∃ ta tb, sampleNewDate a.record_date = some ta ∧
          sampleNewDate b.record_date = some tb ∧ tb ≤ ta) := by
  have hvalid : ∀ r ∈ [sampleRecord10, sampleRecord11], r.user_id = 1 →
      (sampleNewDate r.record_date).isSome = true := by decide
  refine ⟨hvalid, ?_⟩
  obtain ⟨result, hok, _, hpw⟩ := getUserHealthRecords_sorted sampleNewDate
    [sampleRecord10, sampleRecord11] 1 hvalid
  refine ⟨result, hok, ?_, hpw⟩
  have hval : getUserHealthRecords sampleNewDate (.ok [sampleRecord10, sampleRecord11]) 1 =
      .ok [sampleRecord11, sampleRecord10] := rfl
  rw [hval] at hok
  exact (Except.ok.inj hok).symm

/-- Record 12 of user 1, dated the same day as record 10. -/
def sampleRecord12 : HealthRecord :=
  { record_id := 12, user_id := 1, doctor_id := none, diagnosis := "Checkup",
    record_date := "2024-01-01", file_path := none }

/-- C10: the sort of `getUserHealthRecords` is stable.  When the dates of the queried user's
records are valid, the results that fall on any given date are the user's fetched records
of that date in their fetched order; in particular two records `a`, `b` of the user with
the same date, `a` fetched before `b`, come out with `a` before `b`. -/
theorem getUserHealthRecords_stable (newDate : String → Option Int)
    (records : List HealthRecord) (userId : Int) (a b : HealthRecord)
    (hvalid : ∀ r ∈ records, r.user_id = userId → (newDate r.record_date).isSome = true)
    (hsub : [a, b].Sublist records) (ha : a.user_id = userId) (hb : b.user_id = userId)
    (hdate : newDate a.record_date = newDate b.record_date) :
    ∃ result, getUserHealthRecords newDate (.ok records) userId = .ok result ∧
      [a, b].Sublist result ∧
      ∀ t : Int,
        result.filter (fun r => decide (newDate r.record_date = some t)) =
          (records.filter (fun r => decide (r.user_id = userId))).filter
            (fun r => decide (newDate r.record_date = some t)) := by
  have hfilter : ∀ t : Int,
      (sort (fun x y : HealthRecord => dateMinus (newDate y.record_date)
          (newDate x.record_date))
        (records.filter (fun record => record.user_id == userId))).filter
          (fun r => decide (newDate r.record_date = some t)) =
        (records.filter (fun record => record.user_id == userId)).filter
          (fun r => decide (newDate r.record_date = some t)) :=
    fun t => sort_filter_key (fun r : HealthRecord => newDate r.record_date) t _
  refine ⟨_, rfl, ?_, hfilter⟩
  have hamem : a ∈ records := hsub.subset (List.mem_cons_self a [b])
  obtain ⟨t, hta⟩ := Option.isSome_iff_exists.1 (hvalid a hamem ha)
  have htb : newDate b.record_date = some t := hdate ▸ hta
  have h1 : [a, b].Sublist (records.filter (fun record => record.user_id == userId)) := by
    have := hsub.filter (fun record : HealthRecord => record.user_id == userId)
    simpa [List.filter_cons, ha, hb] using this
  have h2 := h1.filter (fun r : HealthRecord => decide (newDate r.record_date = some t))
  rw [← hfilter t] at h2
  have h3 : [a, b].filter (fun r : HealthRecord => decide (newDate r.record_date = some t)) =
      [a, b] := by
    simp [List.filter_cons, hta, htb]
  rw [h3] at h2
  exact h2.trans (List.filter_sublist _)

/-- Instance of C10 on the sample data: records 10 and 12 share a date and keep their
fetched order around record 11. -/
theorem getUserHealthRecords_stable_witness :
    (∀ r ∈ [sampleRecord10, sampleRecord11, sampleRecord12], r.user_id = 1 →
      (sampleNewDate r.record_date).isSome = true) ∧
    [sampleRecord10, sampleRecord12].Sublist [sampleRecord10, sampleRecord11, sampleRecord12] ∧
    sampleNewDate sampleRecord10.record_date = sampleNewDate sampleRecord12.record_date ∧
    getUserHealthRecords sampleNewDate
        (.ok [sampleRecord10, sampleRecord11, sampleRecord12]) 1 =
      .ok [sampleRecord11, sampleRecord10, sampleRecord12] ∧
    ∃ result,
      getUserHealthRecords sampleNewDate
        (.ok [sampleRecord10, sampleRecord11, sampleRecord12]) 1 = .ok result ∧
      [sampleRecord10, sampleRecord12].Sublist result := by
  have hvalid : ∀ r ∈ [sampleRecord10, sampleRecord11, sampleRecord12], r.user_id = 1 →
      (sampleNewDate r.record_date).isSome = true := by decide
  have hsub : [sampleRecord10, sampleRecord12].Sublist
      [sampleRecord10, sampleRecord11, sampleRecord12] := by decide
  refine ⟨hvalid, hsub, rfl, rfl, ?_⟩
  obtain ⟨result, hok, hpair, _⟩ := getUserHealthRecords_stable sampleNewDate
    [sampleRecord10, sampleRecord11, sampleRecord12] 1 sampleRecord10 sampleRecord12
    hvalid hsub rfl rfl rfl
  exact ⟨result, hok, hpair⟩

/-! ## Doctor lookups of the record and treatment cards -/

/-- Doctor lookup of a record card: `doctors.find(d => d.doctor_id === record.doctor_id)`
(Records.js 159). -/
def Records.findDoctor (doctors : List Doctor) (record : HealthRecord) : Option Doctor :=
  doctors.find? (fun d => some d.doctor_id == record.doctor_id)

/-- Record lookup of a treatment card:
`healthRecords.find(r => r.record_id === treatment.record_id)` (Treatments.js 133). -/
def Treatments.findRecord (healthRecords : List HealthRecord) (treatment : Treatment) :
    Option HealthRecord :=
  healthRecords.find? (fun r => r.record_id == treatment.record_id)

/-- Doctor lookup of a treatment card: `doctors.find(d => d.doctor_id === record?.doctor_id)`
(Treatments.js 134); `record` is `none` when the record lookup found nothing. -/
def Treatments.findDoctor (doctors : List Doctor) (record : Option HealthRecord) :
    Option Doctor :=
  doctors.find? (fun d => some d.doctor_id == record.bind (fun r => r.doctor_id))

theorem find_doctor_none (doctors : List Doctor) (did : Option Int)
    (h : ∀ d ∈ doctors, some d.doctor_id ≠ did) :
    doctors.find? (fun d => some d.doctor_id == did) = none := by
  rw [List.find?_eq_none]
  intro d hd
  simpa using h d hd

theorem find_doctor_some (doctors : List Doctor) (did : Option Int)
    (h : ∃ d ∈ doctors, some d.doctor_id = did) :
    ∃ d, doctors.find? (fun d => some d.doctor_id == did) = some d ∧ d ∈ doctors ∧
      some d.doctor_id = did := by
  have hsome : (doctors.find? (fun d => some d.doctor_id == did)).isSome = true := by
    rw [List.find?_isSome]
    obtain ⟨d, hd, hid⟩ := h
    exact ⟨d, hd, by simp [hid]⟩
  obtain ⟨d, hd⟩ := Option.isSome_iff_exists.1 hsome
  refine ⟨d, hd, List.mem_of_find?_eq_some hd, ?_⟩
  simpa using List.find?_some hd

/-- C11: when the parent records of the queried user's treatments carry valid dates, the
treatment history is sorted by the enriched `record_date`, most recent first: every entry
is at least as recent as every later one, in particular any two adjacent ones. -/
theorem getUserTreatmentHistory_sorted (newDate : String → Option Int)
    (treatments : List Treatment) (records : List HealthRecord) (doctors : List Doctor)
    (userId : Int)
    (hvalid : ∀ r ∈ records, r.user_id = userId →
      (∃ t ∈ treatments, t.record_id = r.record_id) →
      (newDate r.record_date).isSome = true) :
    ∃ history,
      getUserTreatmentHistory newDate (.ok treatments) (.ok records) (.ok doctors) userId =
        .ok history ∧
      (∀ (i : Nat) (a b : TreatmentHistoryEntry),
        history[i]? = some a → history[i + 1]? = some b →
        ∃ ta tb, newDateOpt newDate a.record_date = some ta ∧
          newDateOpt newDate b.record_date = some tb ∧ tb ≤ ta) ∧
      history.Pairwise (fun a b =>
        ∃ ta tb, newDateOpt newDate a.record_date = some ta ∧
          newDateOpt newDate b.record_date = some tb ∧ tb ≤ ta) := by
  have hsorted := sort_pairwise
    (fun e : TreatmentHistoryEntry => newDateOpt newDate e.record_date)
    ((treatments.filter (fun treatment =>
        includes ((records.filter (fun record => record.user_id == userId)).map
          (fun record => record.record_id)) treatment.record_id)).map
      (enrichTreatment (records.filter (fun record => record.user_id == userId)) doctors))
    (by
      intro e he
      obtain ⟨t, ht, r, hr, rfl⟩ := mem_history newDate treatments records doctors userId e
        ((mem_sort _ _ e).2 he)
      obtain ⟨hmem, huser, hid⟩ := find_userRecord records userId t.record_id r hr
      have hdate : (enrichTreatment (records.filter (fun record => record.user_id == userId))
          doctors t).record_date = some r.record_date := by
        simp [enrichTreatment, hr]
      simp only [hdate, newDateOpt, Option.some_bind]
      exact hvalid r hmem huser ⟨t, ht, hid.symm⟩)
  refine ⟨_, getUserTreatmentHistory_ok newDate treatments records doctors userId, ?_, hsorted⟩
  intro i a b hi hj
  obtain ⟨hi', rfl⟩ := List.getElem?_eq_some.1 hi
  obtain ⟨hj', rfl⟩ := List.getElem?_eq_some.1 hj
  exact (List.pairwise_iff_getElem.1 hsorted) i (i + 1) hi' hj' (Nat.lt_succ_self i)

/-- Instance of C11 on the sample data: the treatment of record 11 (February) comes before
the treatment of record 10 (January). -/
theorem getUserTreatmentHistory_sorted_witness :
    (∀ r ∈ [sampleRecord10, sampleRecord11], r.user_id = 1 →
      (∃ t ∈ [sampleTreatment, sampleTreatment11], t.record_id = r.record_id) →
      (sampleNewDate r.record_date).isSome = true) ∧
    (∃ history,
      getUserTreatmentHistory sampleNewDate (.ok [sampleTreatment, sampleTreatment11])
        (.ok [sampleRecord10, sampleRecord11]) (.ok [sampleDoctor]) 1 = .ok history ∧
      history.map (fun e => e.treatment_id) = [2, 1] ∧
      history.Pairwise (fun a b =>
        ∃ ta tb, newDateOpt sampleNewDate a.record_date = some ta ∧
          newDateOpt sampleNewDate b.record_date = some tb ∧ tb ≤ ta)) := by
  have hvalid : ∀ r ∈ [sampleRecord10, sampleRecord11], r.user_id = 1 →
      (∃ t ∈ [sampleTreatment, sampleTreatment11], t.record_id = r.record_id) →
      (sampleNewDate r.record_date).isSome = true := by
    intro r hr _ _
    rcases List.mem_cons.1 hr with rfl | hr
    · rfl
    · rw [List.mem_singleton.1 hr]
      rfl
  refine ⟨hvalid, ?_⟩
  obtain ⟨history, hok, _, hpw⟩ := getUserTreatmentHistory_sorted sampleNewDate
    [sampleTreatment, sampleTreatment11] [sampleRecord10, sampleRecord11] [sampleDoctor] 1
    hvalid
  refine ⟨history, hok, ?_, hpw⟩
  have hval : getUserTreatmentHistory sampleNewDate (.ok [sampleTreatment, sampleTreatment11])
      (.ok [sampleRecord10, sampleRecord11]) (.ok [sampleDoctor]) 1 =
      .ok [enrichTreatment [sampleRecord10, sampleRecord11] [sampleDoctor] sampleTreatment11,
           enrichTreatment [sampleRecord10, sampleRecord11] [sampleDoctor] sampleTreatment] :=
    rfl
  rw [hval] at hok
  rw [← Except.ok.inj hok]
  rfl

/-- C12: the doctor lookup of a record card (and of a treatment card, through its record)
is total: it yields no doctor when `R.doctor_id` is null or names no doctor of the
collection, and a doctor of the collection whose `doctor_id` equals `R.doctor_id` when
there is one; a treatment whose record is missing gets no doctor either. -/
theorem findDoctor_total (doctors : List Doctor) (R : HealthRecord) :
    ((R.doctor_id = none ∨ ∀ d ∈ doctors, some d.doctor_id ≠ R.doctor_id) →
      Records.findDoctor doctors R = none ∧ Treatments.findDoctor doctors (some R) = none) ∧
    ((∃ d ∈ doctors, some d.doctor_id = R.doctor_id) →
      ∃ d, Records.findDoctor doctors R = some d ∧
        Treatments.findDoctor doctors (some R) = some d ∧
        d ∈ doctors ∧ some d.doctor_id = R.doctor_id) ∧
    Treatments.findDoctor doctors none = none := by
  refine ⟨?_, ?_, ?_⟩
  · intro h
    have hall : ∀ d ∈ doctors, some d.doctor_id ≠ R.doctor_id := by
      rcases h with hnull | hall
      · intro d _ hd
        rw [hnull] at hd
        exact Option.noConfusion hd
      · exact hall
    exact ⟨find_doctor_none doctors R.doctor_id hall, find_doctor_none doctors R.doctor_id hall⟩
  · intro h
    obtain ⟨d, hd, hmem, hid⟩ := find_doctor_some doctors R.doctor_id h
    exact ⟨d, hd, hd, hmem, hid⟩
  · exact find_doctor_none doctors none (fun d _ hd => Option.noConfusion hd)

/-- Instance of C12 on the sample data: record 10 finds doctor 5, record 11 (doctor 99) and
record 12 (null doctor) find none. -/
theorem findDoctor_total_witness :
    (∃ d ∈ [sampleDoctor], some d.doctor_id = sampleRecord10.doctor_id) ∧
    (∀ d ∈ [sampleDoctor], some d.doctor_id ≠ sampleRecord11.doctor_id) ∧
    sampleRecord12.doctor_id = none ∧
    (∃ d, Records.findDoctor [sampleDoctor] sampleRecord10 = some d ∧
      some d.doctor_id = sampleRecord10.doctor_id) ∧
    Records.findDoctor [sampleDoctor] sampleRecord11 = none ∧
    Records.findDoctor [sampleDoctor] sampleRecord12 = none := by
  have h10 : ∃ d ∈ [sampleDoctor], some d.doctor_id = sampleRecord10.doctor_id :=
    ⟨sampleDoctor, List.mem_singleton.2 rfl, rfl⟩
  have h11 : ∀ d ∈ [sampleDoctor], some d.doctor_id ≠ sampleRecord11.doctor_id := by
    intro d hd
    rw [List.mem_singleton.1 hd]
    decide
  refine ⟨h10, h11, rfl, ?_, ?_, ?_⟩
  · obtain ⟨d, hd, _, _, hid⟩ := (findDoctor_total [sampleDoctor] sampleRecord10).2.1 h10
    exact ⟨d, hd, hid⟩
  · exact ((findDoctor_total [sampleDoctor] sampleRecord11).1 (Or.inr h11)).1
  · exact ((findDoctor_total [sampleDoctor] sampleRecord12).1 (Or.inl rfl)).1

/-- C15: when no record has `user_id = userId`, `getDoctorsVisitedByUser` returns the empty
list, whatever the doctors collection. -/
theorem getDoctorsVisitedByUser_no_records (doctors : List Doctor)
    (records : List HealthRecord) (userId : Int)
    (hnone : ∀ r ∈ records, r.user_id ≠ userId) :
    getDoctorsVisitedByUser (.ok doctors) (.ok records) userId = .ok [] := by
  have hfilter : records.filter (fun record => record.user_id == userId) = [] := by
    rw [List.filter_eq_nil_iff]
    intro r hr
    simpa using hnone r hr
  show Except.ok _ = Except.ok []
  rw [hfilter]
  simp [spreadSet, includes]

/-- Instance of C15: user 2 has no record among the sample records. -/
theorem getDoctorsVisitedByUser_no_records_witness :
    (∀ r ∈ [sampleRecord10, sampleRecord11], r.user_id ≠ 2) ∧
    getDoctorsVisitedByUser (.ok [sampleDoctor]) (.ok [sampleRecord10, sampleRecord11]) 2 =
      .ok [] :=
  ⟨by decide,
    getDoctorsVisitedByUser_no_records [sampleDoctor] [sampleRecord10, sampleRecord11] 2
      (by decide)⟩

/-- C17: each composite view fails as a whole as soon as one of its fetches fails: whatever
the other fetches returned, the result is the operation's fixed error and never a list. -/
theorem composite_views_fail_whole (newDate : String → Option Int) (e : ApiError)
    (userId : Int) (doctors : Response (List Doctor))
    (records : Response (List HealthRecord)) (treatments : Response (List Treatment)) :
    getDoctorsVisitedByUser (.error e) records userId =
        .error "Failed to fetch visited doctors" ∧
    getDoctorsVisitedByUser doctors (.error e) userId =
        .error "Failed to fetch visited doctors" ∧
    getUserTreatments (.error e) records userId = .error "Failed to fetch user treatments" ∧
    getUserTreatments treatments (.error e) userId =
        .error "Failed to fetch user treatments" ∧
    getUserTreatmentHistory newDate (.error e) records doctors userId =
        .error "Failed to fetch user treatment history" ∧
    getUserTreatmentHistory newDate treatments (.error e) doctors userId =
        .error "Failed to fetch user treatment history" ∧
    getUserTreatmentHistory newDate treatments records (.error e) userId =
        .error "Failed to fetch user treatment history" := by
  refine ⟨?_, ?_, ?_, ?_, ?_, ?_, ?_⟩
  · cases records <;> rfl
  · cases doctors <;> rfl
  · cases records <;> rfl
  · cases treatments <;> rfl
  · cases records <;> cases doctors <;> rfl
  · cases treatments <;> cases doctors <;> rfl
  · cases treatments <;> cases records <;> rfl

/-! ## Users, login and the single-request operations of `apiService` -/

/-- User entity as served by `/users`, password included. -/
structure User where
  user_id : Int
  name : String
  age : Int
  gender : String
  contact_number : String
  email : String
  password : String
  deriving DecidableEq, Repr

/-- Value of `userWithoutPassword` in `login`: the rest of the user object once `password`
has been destructured away (api.js 200). -/
structure UserWithoutPassword where
  user_id : Int
  name : String
  age : Int
  gender : String
  contact_number : String
  email : String
  deriving DecidableEq, Repr

/-- `const { password: _, ...userWithoutPassword } = user` (api.js 200). -/
def userWithoutPassword (user : User) : UserWithoutPassword :=
  { user_id := user.user_id, name := user.name, age := user.age, gender := user.gender,
    contact_number := user.contact_number, email := user.email }

/-- `apiService.login` (api.js 189-214).  The `Error` thrown for unmatched credentials passes
through the `catch` block, which rethrows any error carrying that very message and replaces
every other one. -/
def login (response : Response (List User)) (email password : String) :
    Except String UserWithoutPassword :=
  match response with
  | .ok data =>
    match data.find? (fun u => u.email == email && u.password == password) with
    | some user => .ok (userWithoutPassword user)
    | none => .error "Invalid email or password"
  | .error error =>
    if error.message = "Invalid email or password" then .error error.message
    else .error "Login failed. Please try again."

/-- `message || fallback` for the optional string `error.response?.data?.message`: a missing
or empty message is falsy and gives the fallback. -/
def messageOr (message : Option String) (fallback : String) : String :=
  match message with
  | some m => if m = "" then fallback else m
  | none => fallback

/-- `apiService.getUsers` (api.js 49-57). -/
def getUsers (response : Response (List User)) : Except String (List User) :=
  match response with
  | .ok data => .ok data
  | .error error =>
    .error ("Failed to fetch users: " ++ messageOr error.responseMessage error.message)

/-- `apiService.getDoctors` (api.js 60-67). -/
def getDoctors (response : Response (List Doctor)) : Except String (List Doctor) :=
  match response with
  | .ok data => .ok data
  | .error _ => .error "Failed to fetch doctors"

/-- `apiService.getHealthRecords` (api.js 93-100). -/
def getHealthRecords (response : Response (List HealthRecord)) :
    Except String (List HealthRecord) :=
  match response with
  | .ok data => .ok data
  | .error _ => .error "Failed to fetch health records"

/-- `apiService.getTreatments` (api.js 118-125). -/
def getTreatments (response : Response (List Treatment)) : Except String (List Treatment) :=
  match response with
  | .ok data => .ok data
  | .error _ => .error "Failed to fetch treatments"

/-- `apiService.addHealthRecord` (api.js 217-224). -/
def addHealthRecord {α : Type} (response : Response α) : Except String α :=
  match response with
  | .ok data => .ok data
  | .error error => .error (messageOr error.responseMessage "Failed to add health record")

/-- `apiService.addTreatment` (api.js 226-233). -/
def addTreatment {α : Type} (response : Response α) : Except String α :=
  match response with
  | .ok data => .ok data
  | .error error => .error (messageOr error.responseMessage "Failed to add treatment")

/-- `apiService.addDoctor` (api.js 235-242). -/
def addDoctor {α : Type} (response : Response α) : Except String α :=
  match response with
  | .ok data => .ok data
  | .error error => .error (messageOr error.responseMessage "Failed to add doctor")

/-- `apiService.register` (api.js 244-251). -/
def register {α : Type} (response : Response α) : Except String α :=
  match response with
  | .ok data => .ok data
  | .error error => .error (messageOr error.responseMessage "Failed to register user")

/-- `apiService.deleteHealthRecord` (api.js 254-261). -/
def deleteHealthRecord {α : Type} (response : Response α) : Except String α :=
  match response with
  | .ok data => .ok data
  | .error error => .error (messageOr error.responseMessage "Failed to delete health record")

/-- `apiService.deleteTreatment` (api.js 263-270). -/
def deleteTreatment {α : Type} (response : Response α) : Except String α :=
  match response with
  | .ok data => .ok data
  | .error error => .error (messageOr error.responseMessage "Failed to delete treatment")

/-- `apiService.deleteDoctor` (api.js 272-279). -/
def deleteDoctor {α : Type} (response : Response α) : Except String α :=
  match response with
  | .ok data => .ok data
  | .error error => .error (messageOr error.responseMessage "Failed to delete doctor")

/-- `apiService.updateDoctor` (api.js 282-289). -/
def updateDoctor {α : Type} (response : Response α) : Except String α :=
  match response with
  | .ok data => .ok data
  | .error error => .error (messageOr error.responseMessage "Failed to update doctor")

/-- `apiService.updateHealthRecord` (api.js 291-298). -/
def updateHealthRecord {α : Type} (response : Response α) : Except String α :=
  match response with
  | .ok data => .ok data
  | .error error => .error (messageOr error.responseMessage "Failed to update health record")

/-- `apiService.updateTreatment` (api.js 300-307). -/
def updateTreatment {α : Type} (response : Response α) : Except String α :=
  match response with
  | .ok data => .ok data
  | .error error => .error (messageOr error.responseMessage "Failed to update treatment")

/-- `apiService.getHealthInsights` (api.js 310-327). -/
def getHealthInsights {α : Type} (response : Response α) : Except String α :=
  match response with
  | .ok data => .ok data
  | .error error => .error (messageOr error.responseMessage "Failed to fetch health insights")

/-- `apiService.parseVoiceRecord` (api.js 330-343). -/
def parseVoiceRecord {α : Type} (response : Response α) : Except String α :=
  match response with
  | .ok data => .ok data
  | .error error => .error (messageOr error.responseMessage "Failed to parse voice input")

/-- `apiService.parseVoiceDoctor` (api.js 346-359). -/
def parseVoiceDoctor {α : Type} (response : Response α) : Except String α :=
  match response with
  | .ok data => .ok data
  | .error error => .error (messageOr error.responseMessage "Failed to parse voice input")

/-- The user of the specification's login example. -/
def sampleUser : User :=
  { user_id := 1, name := "Raj", age := 30, gender := "M", contact_number := "100",
    email := "a@x.com", password := "pw" }

/-- A second user, with another email and another password. -/
def sampleUser2 : User :=
  { user_id := 2, name := "Mina", age := 41, gender := "F", contact_number := "200",
    email := "b@x.com", password := "secret" }

theorem messageOr_of_nonempty (m fallback : String) (hm : m ≠ "") :
    messageOr (some m) fallback = m := by
  simp [messageOr, hm]

theorem messageOr_of_absent (message : Option String) (fallback : String)
    (h : message = none ∨ message = some "") : messageOr message fallback = fallback := by
  rcases h with h | h <;> simp [messageOr, h]

/-- C13: when some user has exactly that email and that password, `login` resolves to the
first such user without its password, every other field unchanged. -/
theorem login_resolves (users : List User) (email password : String)
    (h : ∃ u ∈ users, u.email = email ∧ u.password = password) :
    ∃ u, users.find? (fun u => decide (u.email = email ∧ u.password = password)) = some u ∧
      u ∈ users ∧ u.email = email ∧ u.password = password ∧
      ∃ result, login (.ok users) email password = .ok result ∧
        result.user_id = u.user_id ∧ result.name = u.name ∧ result.age = u.age ∧
        result.gender = u.gender ∧ result.contact_number = u.contact_number ∧
        result.email = u.email := by
  have hconv : (fun u : User => u.email == email && u.password == password) =
      (fun u : User => decide (u.email = email ∧ u.password = password)) := by
    funext u
    rw [Bool.eq_iff_iff]
    simp
  have hsome : (users.find? (fun u => u.email == email && u.password == password)).isSome =
      true := by
    rw [List.find?_isSome]
    obtain ⟨u, hu, he, hp⟩ := h
    exact ⟨u, hu, by simp [he, hp]⟩
  obtain ⟨u, hu⟩ := Option.isSome_iff_exists.1 hsome
  have hmatch : u.email = email ∧ u.password = password := by
    simpa using List.find?_some hu
  refine ⟨u, hconv ▸ hu, List.mem_of_find?_eq_some hu, hmatch.1, hmatch.2,
    userWithoutPassword u, ?_, rfl, rfl, rfl, rfl, rfl, rfl⟩
  simp only [login, hu]

/-- Instance of C13, the specification's example: `login("a@x.com", "pw")` resolves to
user 1 without the password. -/
theorem login_resolves_witness :
    (∃ u ∈ [sampleUser], u.email = "a@x.com" ∧ u.password = "pw") ∧
    login (.ok [sampleUser]) "a@x.com" "pw" =
      .ok { user_id := 1, name := "Raj", age := 30, gender := "M", contact_number := "100",
            email := "a@x.com" } := by
  have h : ∃ u ∈ [sampleUser], u.email = "a@x.com" ∧ u.password = "pw" :=
    ⟨sampleUser, List.mem_singleton.2 rfl, rfl, rfl⟩
  refine ⟨h, ?_⟩
  obtain ⟨u, _, hmem, _, _, result, hok, _⟩ := login_resolves [sampleUser] "a@x.com" "pw" h
  rw [hok]
  have hval : login (.ok [sampleUser]) "a@x.com" "pw" = .ok (userWithoutPassword sampleUser) :=
    rfl
  rw [hval] at hok
  rw [← Except.ok.inj hok]
  rfl

/-- C14: with the users fetched, when no single user has both that email and that password,
`login` fails with the message "Invalid email or password" and returns no user. -/
theorem login_invalid (users : List User) (email password : String)
    (h : ∀ u ∈ users, ¬(u.email = email ∧ u.password = password)) :
    login (.ok users) email password = .error "Invalid email or password" := by
  have hnone : users.find? (fun u => u.email == email && u.password == password) = none := by
    rw [List.find?_eq_none]
    intro u hu
    simpa using h u hu
  simp only [login, hnone]

/-- Instance of C14: a wrong password for a known email, and an email and a password taken
from two different users, are both refused. -/
theorem login_invalid_witness :
    (∀ u ∈ [sampleUser], ¬(u.email = "a@x.com" ∧ u.password = "wrong")) ∧
    login (.ok [sampleUser]) "a@x.com" "wrong" = .error "Invalid email or password" ∧
    (∀ u ∈ [sampleUser, sampleUser2], ¬(u.email = "a@x.com" ∧ u.password = "secret")) ∧
    login (.ok [sampleUser, sampleUser2]) "a@x.com" "secret" =
      .error "Invalid email or password" :=
  ⟨by decide, login_invalid [sampleUser] "a@x.com" "wrong" (by decide),
    by decide, login_invalid [sampleUser, sampleUser2] "a@x.com" "secret" (by decide)⟩

/-- A rejection whose response body carries a message of the backend. -/
def sampleBackendError : ApiError :=
  { message := "Request failed with status code 500",
    responseMessage := some "Database unavailable" }

/-- C16, as the code has it.  The operations that write or call the AI service throw the
backend message when the failed response carries a non-empty one and their fixed fallback
otherwise; the read operations and the composite views throw their fixed string whatever
the response carries; `getUsers` throws its prefix followed by the backend message or,
without one, the transport message; `login` throws its own two messages. -/
theorem thrown_messages (α : Type) (newDate : String → Option Int) (e : ApiError)
    (userId : Int) (email password : String) :
    (∀ m, e.responseMessage = some m → m ≠ "" →
      addHealthRecord (α := α) (.error e) = .error m ∧
      addTreatment (α := α) (.error e) = .error m ∧
      addDoctor (α := α) (.error e) = .error m ∧
      register (α := α) (.error e) = .error m ∧
      deleteHealthRecord (α := α) (.error e) = .error m ∧
      deleteTreatment (α := α) (.error e) = .error m ∧
      deleteDoctor (α := α) (.error e) = .error m ∧
      updateDoctor (α := α) (.error e) = .error m ∧
      updateHealthRecord (α := α) (.error e) = .error m ∧
      updateTreatment (α := α) (.error e) = .error m ∧
      getHealthInsights (α := α) (.error e) = .error m ∧
      parseVoiceRecord (α := α) (.error e) = .error m ∧
      parseVoiceDoctor (α := α) (.error e) = .error m ∧
      getUsers (.error e) = .error ("Failed to fetch users: " ++ m)) ∧
    ((e.responseMessage = none ∨ e.responseMessage = some "") →
      addHealthRecord (α := α) (.error e) = .error "Failed to add health record" ∧
      addTreatment (α := α) (.error e) = .error "Failed to add treatment" ∧
      addDoctor (α := α) (.error e) = .error "Failed to add doctor" ∧
      register (α := α) (.error e) = .error "Failed to register user" ∧
      deleteHealthRecord (α := α) (.error e) = .error "Failed to delete health record" ∧
      deleteTreatment (α := α) (.error e) = .error "Failed to delete treatment" ∧
      deleteDoctor (α := α) (.error e) = .error "Failed to delete doctor" ∧
      updateDoctor (α := α) (.error e) = .error "Failed to update doctor" ∧
      updateHealthRecord (α := α) (.error e) = .error "Failed to update health record" ∧
      updateTreatment (α := α) (.error e) = .error "Failed to update treatment" ∧
      getHealthInsights (α := α) (.error e) = .error "Failed to fetch health insights" ∧
      parseVoiceRecord (α := α) (.error e) = .error "Failed to parse voice input" ∧
      parseVoiceDoctor (α := α) (.error e) = .error "Failed to parse voice input" ∧
      getUsers (.error e) = .error ("Failed to fetch users: " ++ e.message)) ∧
    (getDoctors (.error e) = .error "Failed to fetch doctors" ∧
      getHealthRecords (.error e) = .error "Failed to fetch health records" ∧
      getTreatments (.error e) = .error "Failed to fetch treatments" ∧
      getUserHealthRecords newDate (.error e) userId =
        .error "Failed to fetch user health records" ∧
      getDoctorsVisitedByUser (.error e) (.error e) userId =
        .error "Failed to fetch visited doctors" ∧
      getUserTreatments (.error e) (.error e) userId =
        .error "Failed to fetch user treatments" ∧
      getUserTreatmentHistory newDate (.error e) (.error e) (.error e) userId =
        .error "Failed to fetch user treatment history") ∧
    (e.message ≠ "Invalid email or password" →
      login (.error e) email password = .error "Login failed. Please try again.") := by
  refine ⟨?_, ?_, ⟨rfl, rfl, rfl, rfl, rfl, rfl, rfl⟩, ?_⟩
  · intro m hm hne
    have hmsg : ∀ fallback, messageOr e.responseMessage fallback = m := by
      intro fallback
      rw [hm]
      exact messageOr_of_nonempty m fallback hne
    simp only [addHealthRecord, addTreatment, addDoctor, register, deleteHealthRecord,
      deleteTreatment, deleteDoctor, updateDoctor, updateHealthRecord, updateTreatment,
      getHealthInsights, parseVoiceRecord, parseVoiceDoctor, getUsers, hmsg, and_self]
  · intro habsent
    have hmsg : ∀ fallback, messageOr e.responseMessage fallback = fallback :=
      fun fallback => messageOr_of_absent e.responseMessage fallback habsent
    simp only [addHealthRecord, addTreatment, addDoctor, register, deleteHealthRecord,
      deleteTreatment, deleteDoctor, updateDoctor, updateHealthRecord, updateTreatment,
      getHealthInsights, parseVoiceRecord, parseVoiceDoctor, getUsers, hmsg, and_self]
  · intro hne
    simp only [login, hne, if_false]

/-- Instance of C16 for a failed request whose response carries "Database unavailable":
`deleteDoctor` and `register` throw that message, `getUsers` prefixes it. -/
theorem thrown_messages_witness :
    sampleBackendError.responseMessage = some "Database unavailable" ∧
    "Database unavailable" ≠ "" ∧
    deleteDoctor (α := Unit) (.error sampleBackendError) = .error "Database unavailable" ∧
    register (α := Unit) (.error sampleBackendError) = .error "Database unavailable" ∧
    getUsers (.error sampleBackendError) =
      .error ("Failed to fetch users: " ++ "Database unavailable") := by
  have h := (thrown_messages Unit sampleNewDate sampleBackendError 1 "a@x.com" "pw").1
    "Database unavailable" rfl (by decide)
  exact ⟨rfl, by decide, h.2.2.2.2.2.2.1, h.2.2.2.1, h.2.2.2.2.2.2.2.2.2.2.2.2.2⟩

/-- C16 fails as stated: the failed response carries the backend message
"Database unavailable", and `getDoctors`, `getHealthRecords` and `getTreatments` throw
their fixed strings instead of it. -/
theorem thrown_messages_counterexample :
    sampleBackendError.responseMessage = some "Database unavailable" ∧
    getDoctors (.error sampleBackendError) = .error "Failed to fetch doctors" ∧
    getHealthRecords (.error sampleBackendError) = .error "Failed to fetch health records" ∧
    getTreatments (.error sampleBackendError) = .error "Failed to fetch treatments" ∧
    "Failed to fetch doctors" ≠ "Database unavailable" := by
  refine ⟨rfl, rfl, rfl, rfl, by decide⟩

/-! ## Session persistence: `localStorage`, `App` and `Navbar` -/

/-- Browser `localStorage`: the string stored under each key, if any. -/
abbrev LocalStorage := String → Option String

/-- `localStorage.getItem(key)`; `none` is `null`. -/
def LocalStorage.getItem (store : LocalStorage) (key : String) : Option String :=
  store key

/-- `localStorage.setItem(key, value)`. -/
def LocalStorage.setItem (store : LocalStorage) (key value : String) : LocalStorage :=
  fun k => if k = key then some value else store k

/-- `localStorage.removeItem(key)`. -/
def LocalStorage.removeItem (store : LocalStorage) (key : String) : LocalStorage :=
  fun k => if k = key then none else store k

/-- An empty `localStorage`. -/
def LocalStorage.empty : LocalStorage :=
  fun _ => none

/-- State of the `App` component (App.js 17-18). -/
structure App.State where
  user : Option UserWithoutPassword
  loading : Bool
  deriving DecidableEq, Repr

/-- State of `App` when it mounts: `useState(null)`, `useState(true)`. -/
def App.initial : App.State :=
  { user := none, loading := true }

/-- The start-up effect of `App` (App.js 20-32).  `jsonParse` is `JSON.parse`: `none` when
it throws, `some none` when it yields `null`, `some (some u)` when it yields a user object.
An empty stored string is falsy and is not parsed. -/
def App.restoreSession (jsonParse : String → Option (Option UserWithoutPassword))
    (s : App.State) (store : LocalStorage) : App.State × LocalStorage :=
  match LocalStorage.getItem store "user" with
  | some storedUser =>
    if storedUser = "" then ({ s with loading := false }, store)
    else
      match jsonParse storedUser with
      | some parsed => ({ user := parsed, loading := false }, store)
      | none => ({ s with loading := false }, LocalStorage.removeItem store "user")
  | none => ({ s with loading := false }, store)

/-- `App.handleLogin` (App.js 34-40); `jsonStringify` is `JSON.stringify`. -/
def App.handleLogin (jsonStringify : UserWithoutPassword → String) (s : App.State)
    (store : LocalStorage) (userData : UserWithoutPassword) : App.State × LocalStorage :=
  ({ s with user := some userData }, LocalStorage.setItem store "user" (jsonStringify userData))

/-- `App.handleLogout` (App.js 42-47). -/
def App.handleLogout (s : App.State) (store : LocalStorage) : App.State × LocalStorage :=
  ({ s with user := none },
    LocalStorage.removeItem (LocalStorage.removeItem store "user") "token")

/-- `logout` of `Navbar` (Navbar.js 8-11), the handler of the logout button when no
`onLogout` prop is passed: the effect on `localStorage`.  The assignment to
`window.location.href` that follows reloads the application at `/login`, which mounts `App`
afresh. -/
def Navbar.logout (store : LocalStorage) : LocalStorage :=
  LocalStorage.removeItem store "token"

/-- The logout button of `Navbar`, `onClick={onLogout || logout}` (Navbar.js 60): with an
`onLogout` prop the prop runs; without one `logout` runs and the reloaded `App` starts up on
the store it left. -/
def Navbar.logoutClick (jsonParse : String → Option (Option UserWithoutPassword))
    (onLogout : Option (App.State → LocalStorage → App.State × LocalStorage))
    (s : App.State) (store : LocalStorage) : App.State × LocalStorage :=
  match onLogout with
  | some handler => handler s store
  | none => App.restoreSession jsonParse App.initial (Navbar.logout store)

/-- The logged-in user of the examples, as `login` returns it. -/
def sampleSessionUser : UserWithoutPassword :=
  userWithoutPassword sampleUser

/-- A `JSON.stringify` for the examples. -/
def sampleStringify (u : UserWithoutPassword) : String :=
  "\x7b\"user_id\":" ++ toString u.user_id ++ "\x7d"

/-- A `JSON.parse` for the examples: it reads back the stored form of the sample user,
reads `null`, and throws on anything else. -/
def sampleParse (s : String) : Option (Option UserWithoutPassword) :=
  if s = "\x7b\"user_id\":1\x7d" then some (some sampleSessionUser)
  else if s = "null" then some none
  else none

/-- The store of a logged-in session: the user saved by `handleLogin`, and a token. -/
def sampleStore : LocalStorage :=
  LocalStorage.setItem
    (App.handleLogin sampleStringify App.initial LocalStorage.empty sampleSessionUser).2
    "token" "t0"

/-- C19, on the code: `App.handleLogout` clears both keys of every store, so a following
start-up restores no user; `Navbar.logout`, which runs on the Chatbot page, removes only
`token` and leaves `user` as it was, so that after it the store of a logged-in session still
holds the user and the start-up that follows restores that user. -/
theorem logout_session_store (jsonParse : String → Option (Option UserWithoutPassword))
    (s : App.State) (store : LocalStorage) :
    (LocalStorage.getItem (App.handleLogout s store).2 "user" = none ∧
      LocalStorage.getItem (App.handleLogout s store).2 "token" = none ∧
      (App.handleLogout s store).1.user = none ∧
      (App.restoreSession jsonParse App.initial (App.handleLogout s store).2).1.user = none) ∧
    (LocalStorage.getItem (Navbar.logout store) "token" = none ∧
      LocalStorage.getItem (Navbar.logout store) "user" = LocalStorage.getItem store "user") ∧
    (LocalStorage.getItem (Navbar.logout sampleStore) "user" =
        some "\x7b\"user_id\":1\x7d" ∧
      (Navbar.logoutClick sampleParse none (App.State.mk (some sampleSessionUser) false)
        sampleStore).1.user = some sampleSessionUser ∧
      (Navbar.logoutClick sampleParse (some App.handleLogout)
        (App.State.mk (some sampleSessionUser) false) sampleStore).1.user = none) := by
  refine ⟨⟨?_, ?_, rfl, ?_⟩, ⟨?_, ?_⟩, ⟨?_, ?_, rfl⟩⟩
  · simp [App.handleLogout, LocalStorage.getItem, LocalStorage.removeItem]
  · simp [App.handleLogout, LocalStorage.getItem, LocalStorage.removeItem]
  · have h : LocalStorage.getItem (App.handleLogout s store).2 "user" = none := by
      simp [App.handleLogout, LocalStorage.getItem, LocalStorage.removeItem]
    simp [App.restoreSession, h, App.initial]
  · simp [Navbar.logout, LocalStorage.getItem, LocalStorage.removeItem]
  · simp [Navbar.logout, LocalStorage.getItem, LocalStorage.removeItem]
  · decide
  · decide

/-! ## Pages: data fetch and list delete

A page handler is a function of the component state it closes over, of the user's answer to
`window.confirm` where it asks for one, and of the outcome of each request it awaits; it
returns the state after its `setState` calls and, for the delete handlers, the effects it
performed in order. -/

/-- Effects of the delete handlers other than state updates. -/
inductive Effect where
  | deleteDoctor (doctorId : Int)
  | deleteHealthRecord (recordId : Int)
  | deleteTreatment (treatmentId : Int)
  | alert (message : String)
  | setTimeout (ms : Nat)
  deriving DecidableEq, Repr

/-- `Promise.all` of two settled results: both values, or a rejection. -/
def promiseAll2 {α β : Type} (a : Except String α) (b : Except String β) :
    Except String (α × β) :=
  match a, b with
  | .ok x, .ok y => .ok (x, y)
  | .error m, _ => .error m
  | .ok _, .error m => .error m

/-- State of the `Doctors` page (Doctors.js 9-16). -/
structure Doctors.State where
  doctors : List Doctor
  loading : Bool
  error : String
  showAddModal : Bool
  showEditModal : Bool
  selectedDoctor : Option Doctor
  showVoiceModal : Bool
  searchTerm : String
  deriving DecidableEq, Repr

/-- Initial state of the `Doctors` page. -/
def Doctors.initial : Doctors.State :=
  { doctors := [], loading := true, error := "", showAddModal := false,
    showEditModal := false, selectedDoctor := none, showVoiceModal := false,
    searchTerm := "" }

/-- `Doctors.fetchDoctors` (Doctors.js 22-33). -/
def Doctors.fetchDoctors (s : Doctors.State) (response : Response (List Doctor)) :
    Doctors.State :=
  match getDoctors response with
  | .ok data => { s with doctors := data, loading := false }
  | .error _ => { s with error := "Failed to fetch doctors", loading := false }

/-- The error card of the `Doctors` page: `error && <div className="error-card">`, below
the early return of the loading view (Doctors.js 71-83, 116-120). -/
def Doctors.errorCard (s : Doctors.State) : Option String :=
  if s.loading then none else if s.error = "" then none else some s.error

/-- `Doctors.handleDeleteDoctor` (Doctors.js 40-50). -/
def Doctors.handleDeleteDoctor {α : Type} (s : Doctors.State) (doctorId : Int)
    (confirmed : Bool) (response : Response α) : Doctors.State × List Effect :=
  if confirmed then
    match deleteDoctor response with
    | .ok _ =>
      ({ s with doctors := s.doctors.filter (fun doctor => doctor.doctor_id != doctorId) },
        [Effect.deleteDoctor doctorId])
    | .error _ => ({ s with error := "Failed to delete doctor" }, [Effect.deleteDoctor doctorId])
  else (s, [])

/-- State of the `Records` page (Records.js 9-17). -/
structure Records.State where
  userRecords : List HealthRecord
  doctors : List Doctor
  loading : Bool
  searchTerm : String
  showAddModal : Bool
  showEditModal : Bool
  selectedRecord : Option HealthRecord
  showVoiceModal : Bool
  successMessage : String
  deriving DecidableEq, Repr

/-- Initial state of the `Records` page. -/
def Records.initial : Records.State :=
  { userRecords := [], doctors := [], loading := true, searchTerm := "",
    showAddModal := false, showEditModal := false, selectedRecord := none,
    showVoiceModal := false, successMessage := "" }

/-- `Records.fetchData` (Records.js 19-34): the `catch` block only logs to the console. -/
def Records.fetchData (newDate : String → Option Int) (s : Records.State) (userId : Int)
    (recordsResponse : Response (List HealthRecord))
    (doctorsResponse : Response (List Doctor)) : Records.State :=
  match promiseAll2 (getUserHealthRecords newDate recordsResponse userId)
      (getDoctors doctorsResponse) with
  | .ok (recordsData, doctorsData) =>
    { s with userRecords := recordsData, doctors := doctorsData, loading := false }
  | .error _ => { s with loading := false }

/-- The message cards the `Records` page renders: the success card only
(Records.js 136-140); the page has no error card. -/
def Records.messageCards (s : Records.State) : List String :=
  if s.successMessage = "" then [] else [s.successMessage]

/-- `Records.handleDeleteRecord` (Records.js 70-82). -/
def Records.handleDeleteRecord {α : Type} (s : Records.State) (recordId : Int)
    (confirmed : Bool) (response : Response α) : Records.State × List Effect :=
  if confirmed then
    match deleteHealthRecord response with
    | .ok _ =>
      ({ s with
          userRecords := s.userRecords.filter (fun record => record.record_id != recordId)
          successMessage := "Health record deleted successfully!" },
        [Effect.deleteHealthRecord recordId, Effect.setTimeout 3000])
    | .error _ =>
      (s, [Effect.deleteHealthRecord recordId, Effect.alert "Failed to delete health record"])
  else (s, [])

/-- State of the `Treatments` page (Treatments.js 7-13). -/
structure Treatments.State where
  treatments : List Treatment
  healthRecords : List HealthRecord
  doctors : List Doctor
  loading : Bool
  error : String
  showAddModal : Bool
  searchTerm : String
  deriving DecidableEq, Repr

/-- Initial state of the `Treatments` page. -/
def Treatments.initial : Treatments.State :=
  { treatments := [], healthRecords := [], doctors := [], loading := true, error := "",
    showAddModal := false, searchTerm := "" }

/-- `Treatments.fetchData` (Treatments.js 15-33).  `getUserTreatments` and
`getUserHealthRecords` each fetch `/health_records` on their own. -/
def Treatments.fetchData (newDate : String → Option Int) (s : Treatments.State)
    (userId : Int) (treatmentsResponse : Response (List Treatment))
    (recordsResponse : Response (List HealthRecord))
    (userRecordsResponse : Response (List HealthRecord))
    (doctorsResponse : Response (List Doctor)) : Treatments.State :=
  match promiseAll2 (getUserTreatments treatmentsResponse recordsResponse userId)
      (promiseAll2 (getUserHealthRecords newDate userRecordsResponse userId)
        (getDoctors doctorsResponse)) with
  | .ok (treatmentsData, recordsData, doctorsData) =>
    { s with treatments := treatmentsData, healthRecords := recordsData,
             doctors := doctorsData, loading := false }
  | .error _ => { s with error := "Failed to fetch treatments", loading := false }

/-- The error card of the `Treatments` page (Treatments.js 71-83, 110-114). -/
def Treatments.errorCard (s : Treatments.State) : Option String :=
  if s.loading then none else if s.error = "" then none else some s.error

/-- `Treatments.handleDeleteTreatment` (Treatments.js 39-49). -/
def Treatments.handleDeleteTreatment {α : Type} (s : Treatments.State) (treatmentId : Int)
    (confirmed : Bool) (response : Response α) : Treatments.State × List Effect :=
  if confirmed then
    match deleteTreatment response with
    | .ok _ =>
      ({ s with
          treatments :=
            s.treatments.filter (fun treatment => treatment.treatment_id != treatmentId) },
        [Effect.deleteTreatment treatmentId])
    | .error _ =>
      ({ s with error := "Failed to delete treatment" }, [Effect.deleteTreatment treatmentId])
  else (s, [])

/-- State of the `Dashboard` page (Dashboard.js 6-13), the four lists of `data` side by
side. -/
structure Dashboard.State where
  users : List User
  doctors : List Doctor
  healthRecords : List HealthRecord
  treatments : List Treatment
  loading : Bool
  error : String
  deriving DecidableEq, Repr

/-- Initial state of the `Dashboard` page. -/
def Dashboard.initial : Dashboard.State :=
  { users := [], doctors := [], healthRecords := [], treatments := [], loading := true,
    error := "" }

/-- `fetchData` of the `Dashboard` page (Dashboard.js 16-38). -/
def Dashboard.fetchData (s : Dashboard.State) (usersResponse : Response (List User))
    (doctorsResponse : Response (List Doctor))
    (recordsResponse : Response (List HealthRecord))
    (treatmentsResponse : Response (List Treatment)) : Dashboard.State :=
  match promiseAll2 (getUsers usersResponse)
      (promiseAll2 (getDoctors doctorsResponse)
        (promiseAll2 (getHealthRecords recordsResponse) (getTreatments treatmentsResponse)))
    with
  | .ok (users, doctors, healthRecords, treatments) =>
    { s with users := users, doctors := doctors, healthRecords := healthRecords,
             treatments := treatments, loading := false }
  | .error _ => { s with error := "Failed to load dashboard data", loading := false }

/-- The error card of the `Dashboard` page: the early return on `error`
(Dashboard.js 47-72). -/
def Dashboard.errorCard (s : Dashboard.State) : Option String :=
  if s.loading then none else if s.error = "" then none else some s.error

/-- Counters of the `Home` page (Home.js 8-13). -/
structure Home.Stats where
  visitedDoctors : Nat
  totalRecords : Nat
  totalTreatments : Nat
  recentActivity : Nat
  deriving DecidableEq, Repr

/-- State of the `Home` page (Home.js 8-19). -/
structure Home.State where
  stats : Home.Stats
  recentRecords : List HealthRecord
  doctors : List Doctor
  loading : Bool
  showAddDoctorModal : Bool
  showAddRecordModal : Bool
  allDoctors : List Doctor
  deriving DecidableEq, Repr

/-- Initial state of the `Home` page. -/
def Home.initial : Home.State :=
  { stats := { visitedDoctors := 0, totalRecords := 0, totalTreatments := 0,
               recentActivity := 0 },
    recentRecords := [], doctors := [], loading := true, showAddDoctorModal := false,
    showAddRecordModal := false, allDoctors := [] }

/-- `fetchData` of the `Home` page (Home.js 22-56): the `catch` block only logs to the
console.  Each of the four `apiService` calls issues its own requests. -/
def Home.fetchData (newDate : String → Option Int) (s : Home.State) (userId : Int)
    (userRecordsResponse : Response (List HealthRecord))
    (treatmentsResponse : Response (List Treatment))
    (treatmentRecordsResponse : Response (List HealthRecord))
    (visitedDoctorsResponse : Response (List Doctor))
    (visitedRecordsResponse : Response (List HealthRecord))
    (doctorsResponse : Response (List Doctor)) : Home.State :=
  match promiseAll2 (getUserHealthRecords newDate userRecordsResponse userId)
      (promiseAll2 (getUserTreatments treatmentsResponse treatmentRecordsResponse userId)
        (promiseAll2
          (getDoctorsVisitedByUser visitedDoctorsResponse visitedRecordsResponse userId)
          (getDoctors doctorsResponse))) with
  | .ok (userRecords, userTreatments, visitedDoctors, allDoctorsData) =>
    { s with
        stats := { visitedDoctors := visitedDoctors.length
                   totalRecords := userRecords.length
                   totalTreatments := userTreatments.length
                   recentActivity := (userRecords.take 5).length }
        recentRecords := userRecords
        doctors := visitedDoctors
        allDoctors := allDoctorsData
        loading := false }
  | .error _ => { s with loading := false }

theorem promiseAll2_error_left {α β : Type} (m : String) (b : Except String β) :
    promiseAll2 (α := α) (.error m) b = .error m := by
  cases b <;> rfl

theorem promiseAll2_error_right {α β : Type} (a : Except String α) (m : String) :
    ∃ m', promiseAll2 (β := β) a (.error m) = .error m' := by
  cases a with
  | error m0 => exact ⟨m0, rfl⟩
  | ok x => exact ⟨m, rfl⟩

theorem promiseAll2_error_right_of {α β : Type} (a : Except String α) (b : Except String β)
    (hb : ∃ m, b = .error m) : ∃ m', promiseAll2 a b = .error m' := by
  obtain ⟨m, rfl⟩ := hb
  exact promiseAll2_error_right a m

theorem Treatments.fetchData_treatments_of_error (newDate : String → Option Int) (s : Treatments.State)
    (userId : Int) (treatmentsResponse : Response (List Treatment))
    (recordsResponse userRecordsResponse : Response (List HealthRecord))
    (doctorsResponse : Response (List Doctor))
    (h : ∃ m, promiseAll2 (getUserTreatments treatmentsResponse recordsResponse userId)
      (promiseAll2 (getUserHealthRecords newDate userRecordsResponse userId)
        (getDoctors doctorsResponse)) = .error m) :
    Treatments.fetchData newDate s userId treatmentsResponse recordsResponse
        userRecordsResponse doctorsResponse =
      { s with error := "Failed to fetch treatments", loading := false } := by
  obtain ⟨m, hm⟩ := h
  simp only [Treatments.fetchData, hm]

theorem Dashboard.fetchData_dashboard_of_error (s : Dashboard.State)
    (usersResponse : Response (List User)) (doctorsResponse : Response (List Doctor))
    (recordsResponse : Response (List HealthRecord))
    (treatmentsResponse : Response (List Treatment))
    (h : ∃ m, promiseAll2 (getUsers usersResponse)
      (promiseAll2 (getDoctors doctorsResponse)
        (promiseAll2 (getHealthRecords recordsResponse) (getTreatments treatmentsResponse))) =
      .error m) :
    Dashboard.fetchData s usersResponse doctorsResponse recordsResponse treatmentsResponse =
      { s with error := "Failed to load dashboard data", loading := false } := by
  obtain ⟨m, hm⟩ := h
  simp only [Dashboard.fetchData, hm]

theorem Records.fetchData_records_of_error (newDate : String → Option Int) (s : Records.State)
    (userId : Int) (recordsResponse : Response (List HealthRecord))
    (doctorsResponse : Response (List Doctor))
    (h : ∃ m, promiseAll2 (getUserHealthRecords newDate recordsResponse userId)
      (getDoctors doctorsResponse) = .error m) :
    Records.fetchData newDate s userId recordsResponse doctorsResponse =
      { s with loading := false } := by
  obtain ⟨m, hm⟩ := h
  simp only [Records.fetchData, hm]

theorem Home.fetchData_home_of_error (newDate : String → Option Int) (s : Home.State)
    (userId : Int) (userRecordsResponse : Response (List HealthRecord))
    (treatmentsResponse : Response (List Treatment))
    (treatmentRecordsResponse : Response (List HealthRecord))
    (visitedDoctorsResponse : Response (List Doctor))
    (visitedRecordsResponse : Response (List HealthRecord))
    (doctorsResponse : Response (List Doctor))
    (h : ∃ m, promiseAll2 (getUserHealthRecords newDate userRecordsResponse userId)
      (promiseAll2 (getUserTreatments treatmentsResponse treatmentRecordsResponse userId)
        (promiseAll2
          (getDoctorsVisitedByUser visitedDoctorsResponse visitedRecordsResponse userId)
          (getDoctors doctorsResponse))) = .error m) :
    Home.fetchData newDate s userId userRecordsResponse treatmentsResponse
        treatmentRecordsResponse visitedDoctorsResponse visitedRecordsResponse
        doctorsResponse =
      { s with loading := false } := by
  obtain ⟨m, hm⟩ := h
  simp only [Home.fetchData, hm]

/-- C18, on the code: a failed fetch puts a fixed, rendered error message in the state of
the `Doctors`, `Treatments` and `Dashboard` pages; on the `Records` and `Home` pages it only
ends the loading state: every other field is as it was, and a `Records` page that has just
mounted renders no message card. -/
theorem fetch_failure_messages (newDate : String → Option Int) (e : ApiError) (userId : Int)
    (sd : Doctors.State) (st : Treatments.State) (sb : Dashboard.State)
    (sr : Records.State) (sh : Home.State)
    (users : Response (List User)) (doctors : Response (List Doctor))
    (records records2 records3 : Response (List HealthRecord))
    (treatments : Response (List Treatment)) :
    (Doctors.errorCard (Doctors.fetchDoctors sd (.error e)) = some "Failed to fetch doctors") ∧
    (Treatments.errorCard
        (Treatments.fetchData newDate st userId (.error e) records records2 doctors) =
        some "Failed to fetch treatments" ∧
      Treatments.errorCard
        (Treatments.fetchData newDate st userId treatments records (.error e) doctors) =
        some "Failed to fetch treatments" ∧
      Treatments.errorCard
        (Treatments.fetchData newDate st userId treatments records records2 (.error e)) =
        some "Failed to fetch treatments") ∧
    (Dashboard.errorCard (Dashboard.fetchData sb (.error e) doctors records treatments) =
        some "Failed to load dashboard data" ∧
      Dashboard.errorCard (Dashboard.fetchData sb users doctors (.error e) treatments) =
        some "Failed to load dashboard data") ∧
    (Records.fetchData newDate sr userId (.error e) doctors = { sr with loading := false } ∧
      Records.fetchData newDate sr userId records (.error e) = { sr with loading := false } ∧
      Records.messageCards (Records.fetchData newDate Records.initial userId (.error e) doctors)
        = []) ∧
    (Home.fetchData newDate sh userId (.error e) treatments records doctors records2 doctors =
        { sh with loading := false } ∧
      Home.fetchData newDate sh userId records treatments records2 doctors records3
        (.error e) = { sh with loading := false }) := by
  refine ⟨rfl, ⟨?_, ?_, ?_⟩, ⟨?_, ?_⟩, ⟨?_, ?_, ?_⟩, ⟨?_, ?_⟩⟩
  · rw [Treatments.fetchData_treatments_of_error]
    · rfl
    · have h1 : getUserTreatments (.error e) records userId =
          .error "Failed to fetch user treatments" := by cases records <;> rfl
      rw [h1]
      exact ⟨_, promiseAll2_error_left _ _⟩
  · rw [Treatments.fetchData_treatments_of_error]
    · rfl
    · exact promiseAll2_error_right_of _ _ ⟨_, promiseAll2_error_left _ _⟩
  · rw [Treatments.fetchData_treatments_of_error]
    · rfl
    · exact promiseAll2_error_right_of _ _ (promiseAll2_error_right _ _)
  · rw [Dashboard.fetchData_dashboard_of_error]
    · rfl
    · exact ⟨_, promiseAll2_error_left _ _⟩
  · rw [Dashboard.fetchData_dashboard_of_error]
    · rfl
    · exact promiseAll2_error_right_of _ _
        (promiseAll2_error_right_of _ _ ⟨_, promiseAll2_error_left _ _⟩)
  · exact Records.fetchData_records_of_error newDate sr userId _ _ ⟨_, promiseAll2_error_left _ _⟩
  · exact Records.fetchData_records_of_error newDate sr userId _ _ (promiseAll2_error_right _ _)
  · have h := Records.fetchData_records_of_error newDate Records.initial userId (.error e) doctors
      ⟨_, promiseAll2_error_left _ _⟩
    rw [h]
    rfl
  · exact Home.fetchData_home_of_error newDate sh userId _ _ _ _ _ _
      ⟨_, promiseAll2_error_left _ _⟩
  · exact Home.fetchData_home_of_error newDate sh userId _ _ _ _ _ _
      (promiseAll2_error_right_of _ _
        (promiseAll2_error_right_of _ _ (promiseAll2_error_right _ _)))

/-- C20: the three list-delete handlers are guarded by the confirmation prompt: when it is
declined they issue no request and leave the page state as it was, and when the delete
request fails, the list is left unchanged. -/
theorem delete_handlers_guarded (α : Type) (sd : Doctors.State) (sr : Records.State)
    (st : Treatments.State) (id : Int) (response : Response α) (e : ApiError) :
    Doctors.handleDeleteDoctor sd id false response = (sd, []) ∧
    Records.handleDeleteRecord sr id false response = (sr, []) ∧
    Treatments.handleDeleteTreatment st id false response = (st, []) ∧
    (Doctors.handleDeleteDoctor (α := α) sd id true (.error e)).1.doctors = sd.doctors ∧
    (Records.handleDeleteRecord (α := α) sr id true (.error e)).1.userRecords =
      sr.userRecords ∧
    (Treatments.handleDeleteTreatment (α := α) st id true (.error e)).1.treatments =
      st.treatments :=
  ⟨rfl, rfl, rfl, rfl, rfl, rfl⟩

/-- C21: a confirmed and successful `handleDeleteDoctor` issues the single delete request
for that doctor, no request for a health record or a treatment, and changes only the
doctors list, which becomes the previous list without the entries whose `doctor_id` equals
`doctorId`, the other doctors kept in order. -/
theorem handleDeleteDoctor_no_cascade (α : Type) (s : Doctors.State) (doctorId : Int)
    (data : α) :
    Doctors.handleDeleteDoctor s doctorId true (.ok data) =
      ({ s with doctors := s.doctors.filter (fun d => decide (d.doctor_id ≠ doctorId)) },
        [Effect.deleteDoctor doctorId]) ∧
    (∀ id, Effect.deleteHealthRecord id ∉
        (Doctors.handleDeleteDoctor s doctorId true (.ok data)).2 ∧
      Effect.deleteTreatment id ∉ (Doctors.handleDeleteDoctor s doctorId true (.ok data)).2) ∧
    (∀ d, d ∈ (Doctors.handleDeleteDoctor s doctorId true (.ok data)).1.doctors ↔
      d ∈ s.doctors ∧ d.doctor_id ≠ doctorId) ∧
    (Doctors.handleDeleteDoctor s doctorId true (.ok data)).1.doctors.Sublist s.doctors := by
  have hfilter : s.doctors.filter (fun doctor => doctor.doctor_id != doctorId) =
      s.doctors.filter (fun d => decide (d.doctor_id ≠ doctorId)) := by
    apply List.filter_congr
    intro d _
    rw [Bool.eq_iff_iff]
    simp
  have heq : Doctors.handleDeleteDoctor s doctorId true (.ok data) =
      ({ s with doctors := s.doctors.filter (fun d => decide (d.doctor_id ≠ doctorId)) },
        [Effect.deleteDoctor doctorId]) := by
    rw [← hfilter]
    rfl
  rw [heq]
  refine ⟨rfl, ?_, ?_, List.filter_sublist _⟩
  · intro id
    simp
  · intro d
    simp [List.mem_filter]

/-- The error message of `login` in full: "Invalid email or password" exactly when the
fetch succeeded and no user matched, or the rejection itself carries that very message,
which the `catch` block rethrows (api.js 209-211); every other rejection gives
"Login failed. Please try again.". -/
theorem login_error_message_iff (response : Response (List User)) (email password : String) :
    (login response email password = .error "Invalid email or password" ↔
      (∃ users, response = .ok users ∧
        ∀ u ∈ users, ¬(u.email = email ∧ u.password = password)) ∨
      (∃ e, response = .error e ∧ e.message = "Invalid email or password")) ∧
    (∀ e, response = .error e → e.message ≠ "Invalid email or password" →
      login response email password = .error "Login failed. Please try again.") := by
  constructor
  · cases response with
    | ok users =>
      cases hfind : users.find? (fun u => u.email == email && u.password == password) with
      | none =>
        have hnone : ∀ u ∈ users, ¬(u.email = email ∧ u.password = password) := by
          intro u hu
          have := List.find?_eq_none.1 hfind u hu
          simpa using this
        simp only [login, hfind, true_iff]
        exact Or.inl ⟨users, rfl, hnone⟩
      | some u =>
        have hmem := List.mem_of_find?_eq_some hfind
        have hmatch : u.email = email ∧ u.password = password := by
          simpa using List.find?_some hfind
        simp only [login, hfind]
        constructor
        · intro h
          cases h
        · rintro (⟨users', hu', hno⟩ | ⟨e, he, _⟩)
          · cases hu'
            exact absurd hmatch (hno u hmem)
          · cases he
    | error e =>
      by_cases hmsg : e.message = "Invalid email or password"
      · simp only [login, hmsg, if_true, true_iff]
        exact Or.inr ⟨e, rfl, hmsg⟩
      · simp only [login, hmsg, if_false]
        constructor
        · intro h
          have := Except.error.inj h
          exact absurd this (by decide)
        · rintro (⟨users', hu', _⟩ | ⟨e', he', hm'⟩)
          · cases hu'
          · cases he'
            exact absurd hm' hmsg
  · intro e he hmsg
    subst he
    simp only [login, hmsg, if_false]

/-- `error.message` of the HTTP client for a response with a status outside 2xx. -/
def statusMessage (code : Nat) : String :=
  "Request failed with status code " ++ toString code

theorem statusMessage_ne_credentials (code : Nat) :
    statusMessage code ≠ "Invalid email or password" := by
  intro h
  have hdata := congrArg String.data h
  rw [statusMessage, String.data_append] at hdata
  have hhead := congrArg List.head? hdata
  have hleft : ("Request failed with status code ".data ++ (toString code).data).head? =
      some 'R' := rfl
  rw [hleft] at hhead
  exact absurd hhead (by decide)

/-- C24: `login` distinguishes a credential mismatch from a transport failure.  The errors
with which the HTTP client rejects the users fetch carry a message the client wrote
("Network Error", "timeout of 10000ms exceeded", "Request failed with status code 401"),
never the message `login` throws itself; for every such fetch outcome `login` fails with
"Invalid email or password" if and only if the fetch succeeded and no user matched, and for
every failed fetch it fails with "Login failed. Please try again.". -/
theorem login_distinguishes (response : Response (List User)) (email password : String)
    (hclient : ∀ e, response = .error e → e.message ≠ "Invalid email or password") :
    (login response email password = .error "Invalid email or password" ↔
      ∃ users, response = .ok users ∧
        ∀ u ∈ users, ¬(u.email = email ∧ u.password = password)) ∧
    (∀ e, response = .error e →
      login response email password = .error "Login failed. Please try again.") := by
  obtain ⟨hiff, hfail⟩ := login_error_message_iff response email password
  refine ⟨?_, fun e he => hfail e he (hclient e he)⟩
  rw [hiff]
  constructor
  · rintro (h | ⟨e, he, hmsg⟩)
    · exact h
    · exact absurd hmsg (hclient e he)
  · intro h
    exact Or.inl h

/-- Instance of C24: a 401 response whose body says "Invalid email or password", a network
error and a timeout all give the transport message, as does every status code; a fetched
list without a match gives the credential message. -/
theorem login_distinguishes_witness :
    (∀ e, (Except.error { message := statusMessage 401,
                          responseMessage := some "Invalid email or password" } :
            Response (List User)) = .error e →
      e.message ≠ "Invalid email or password") ∧
    login (.error { message := statusMessage 401,
                    responseMessage := some "Invalid email or password" })
        "a@x.com" "pw" = .error "Login failed. Please try again." ∧
    login (.error { message := "Network Error", responseMessage := none }) "a@x.com" "pw" =
      .error "Login failed. Please try again." ∧
    login (.error { message := "timeout of 10000ms exceeded", responseMessage := none })
        "a@x.com" "pw" = .error "Login failed. Please try again." ∧
    (∀ (code : Nat) (body : Option String),
      login (.error { message := statusMessage code, responseMessage := body })
        "a@x.com" "pw" = .error "Login failed. Please try again.") ∧
    login (.ok [sampleUser]) "a@x.com" "wrong" = .error "Invalid email or password" := by
  have hclient : ∀ (m : String) (body : Option String), m ≠ "Invalid email or password" →
      ∀ e, (Except.error { message := m, responseMessage := body } :
        Response (List User)) = .error e → e.message ≠ "Invalid email or password" := by
    intro m body hm e he
    cases he
    exact hm
  refine ⟨hclient _ _ (statusMessage_ne_credentials 401), ?_, ?_, ?_, ?_, ?_⟩
  · exact (login_distinguishes _ "a@x.com" "pw"
      (hclient _ _ (statusMessage_ne_credentials 401))).2 _ rfl
  · exact (login_distinguishes _ "a@x.com" "pw" (hclient _ _ (by decide))).2 _ rfl
  · exact (login_distinguishes _ "a@x.com" "pw" (hclient _ _ (by decide))).2 _ rfl
  · intro code body
    exact (login_distinguishes _ "a@x.com" "pw"
      (hclient _ _ (statusMessage_ne_credentials code))).2 _ rfl
  · refine (login_distinguishes (.ok [sampleUser]) "a@x.com" "wrong"
      (fun e he => by cases he)).1.2 ⟨[sampleUser], rfl, by decide⟩

theorem visited_length_le_distinct (doctors : List Doctor) (ids : List (Option Int))
    (hdistinct : (doctors.map (fun d => d.doctor_id)).Nodup) :
    (doctors.filter (fun doctor => includes (spreadSet ids) (some doctor.doctor_id))).length ≤
      ids.toFinset.card := by
  have hsub : (doctors.filter
      (fun doctor => includes (spreadSet ids) (some doctor.doctor_id))).Sublist doctors :=
    List.filter_sublist _
  have hnodup : ((doctors.filter
      (fun doctor => includes (spreadSet ids) (some doctor.doctor_id))).map
        (fun d => d.doctor_id)).Nodup :=
    List.Nodup.sublist (hsub.map _) hdistinct
  have hnodup' : (((doctors.filter
      (fun doctor => includes (spreadSet ids) (some doctor.doctor_id))).map
        (fun d => d.doctor_id)).map (fun i : Int => (some i : Option Int))).Nodup :=
    List.Nodup.map (fun a b h => Option.some.inj h) hnodup
  have hcard := List.toFinset_card_of_nodup hnodup'
  have hlen : (doctors.filter
      (fun doctor => includes (spreadSet ids) (some doctor.doctor_id))).length =
      (((doctors.filter
        (fun doctor => includes (spreadSet ids) (some doctor.doctor_id))).map
          (fun d => d.doctor_id)).map (fun i : Int => (some i : Option Int))).toFinset.card := by
    rw [hcard, List.length_map, List.length_map]
  rw [hlen]
  apply Finset.card_le_card
  intro x hx
  rw [List.mem_toFinset] at hx ⊢
  obtain ⟨i, hi, rfl⟩ := List.mem_map.1 hx
  obtain ⟨d, hd, rfl⟩ := List.mem_map.1 hi
  have hinc := (List.mem_filter.1 hd).2
  exact (mem_spreadSet ids _).1 ((includes_iff _ _).1 hinc)

/-- C30: when the doctors have pairwise distinct `doctor_id` values, the number of doctors
`getDoctorsVisitedByUser` returns is at most the number of distinct `doctor_id` values among
the user's records, hence at most the number of records `getUserHealthRecords` returns; and
the counters a successful `Home.fetchData` sets from the same collections satisfy
`visitedDoctors ≤ totalRecords` and `recentActivity = min 5 totalRecords`. -/
theorem home_counters (newDate : String → Option Int) (doctors : List Doctor)
    (records : List HealthRecord) (userId : Int)
    (hdistinct : (doctors.map (fun d => d.doctor_id)).Nodup) :
    ∃ visited userRecords,
      getDoctorsVisitedByUser (.ok doctors) (.ok records) userId = .ok visited ∧
      getUserHealthRecords newDate (.ok records) userId = .ok userRecords ∧
      visited.length ≤
        ((records.filter (fun r => decide (r.user_id = userId))).map
          (fun r => r.doctor_id)).toFinset.card ∧
      ((records.filter (fun r => decide (r.user_id = userId))).map
          (fun r => r.doctor_id)).toFinset.card ≤ userRecords.length ∧
      visited.length ≤ userRecords.length ∧
      ∀ (s : Home.State) (treatments : List Treatment),
        (Home.fetchData newDate s userId (.ok records) (.ok treatments) (.ok records)
            (.ok doctors) (.ok records) (.ok doctors)).stats.visitedDoctors = visited.length ∧
        (Home.fetchData newDate s userId (.ok records) (.ok treatments) (.ok records)
            (.ok doctors) (.ok records) (.ok doctors)).stats.totalRecords =
          userRecords.length ∧
        (Home.fetchData newDate s userId (.ok records) (.ok treatments) (.ok records)
            (.ok doctors) (.ok records) (.ok doctors)).stats.visitedDoctors ≤
          (Home.fetchData newDate s userId (.ok records) (.ok treatments) (.ok records)
            (.ok doctors) (.ok records) (.ok doctors)).stats.totalRecords ∧
        (Home.fetchData newDate s userId (.ok records) (.ok treatments) (.ok records)
            (.ok doctors) (.ok records) (.ok doctors)).stats.recentActivity =
          min 5 (Home.fetchData newDate s userId (.ok records) (.ok treatments) (.ok records)
            (.ok doctors) (.ok records) (.ok doctors)).stats.totalRecords := by
  have h1 := visited_length_le_distinct doctors
    ((records.filter (fun record => record.user_id == userId)).map (fun r => r.doctor_id))
    hdistinct
  have h2 : ((records.filter (fun record => record.user_id == userId)).map
      (fun r => r.doctor_id)).toFinset.card ≤
      (sort (fun a b : HealthRecord =>
          dateMinus (newDate b.record_date) (newDate a.record_date))
        (records.filter (fun record => record.user_id == userId))).length := by
    rw [(sort_perm _ _).length_eq]
    exact (List.toFinset_card_le _).trans (le_of_eq (List.length_map _ _))
  refine ⟨_, _, rfl, rfl, h1, h2, h1.trans h2, ?_⟩
  intro s treatments
  refine ⟨rfl, rfl, h1.trans h2, ?_⟩
  show (List.take 5 _).length = min 5 _
  rw [List.length_take]
  rfl

/-- Instance of C30 on the sample data: one visited doctor, two records. -/
theorem home_counters_witness :
    ([sampleDoctor].map (fun d => d.doctor_id)).Nodup ∧
    (Home.fetchData sampleNewDate Home.initial 1 (.ok [sampleRecord10, sampleRecord11])
        (.ok [sampleTreatment]) (.ok [sampleRecord10, sampleRecord11]) (.ok [sampleDoctor])
        (.ok [sampleRecord10, sampleRecord11]) (.ok [sampleDoctor])).stats =
      { visitedDoctors := 1, totalRecords := 2, totalTreatments := 1, recentActivity := 2 } ∧
    ∃ visited userRecords,
      getDoctorsVisitedByUser (.ok [sampleDoctor]) (.ok [sampleRecord10, sampleRecord11]) 1 =
        .ok visited ∧
      getUserHealthRecords sampleNewDate (.ok [sampleRecord10, sampleRecord11]) 1 =
        .ok userRecords ∧
      visited.length ≤ userRecords.length := by
  refine ⟨by decide, by decide, ?_⟩
  obtain ⟨visited, userRecords, hv, hu, _, _, hle, _⟩ := home_counters sampleNewDate
    [sampleDoctor] [sampleRecord10, sampleRecord11] 1 (by decide)
  exact ⟨visited, userRecords, hv, hu, hle⟩

/-! ## Search filter of the `Records` page -/

/-- `String.prototype.includes`: `term` occurs in `s` as a contiguous run of characters. -/
def stringIncludes (s term : String) : Bool :=
  decide (List.IsInfix term.data s.data)

/-- One disjunct of the search predicate, `field?.toLowerCase().includes(term)`: `undefined`
(falsy) when the field is missing from the record. -/
def fieldMatches (toLowerCase : String → String) (field : Option String) (term : String) :
    Bool :=
  match field with
  | some value => stringIncludes (toLowerCase value) term
  | none => false

/-- A health record as the `Records` page reads it out of `userRecords`.  The search
predicate reads `condition_name`, `notes` and `severity` besides `diagnosis`, and guards
each of the four against being missing (Records.js 85-88), as the card does for the
diagnosis (Records.js 165).  `none` is `null` or `undefined`. -/
structure Records.ServedRecord where
  record_id : Int
  condition_name : Option String
  diagnosis : Option String
  notes : Option String
  severity : Option String
  deriving DecidableEq, Repr

/-- A record of the data model as the page reads it: it carries its diagnosis and none of
the three other fields. -/
def HealthRecord.served (record : HealthRecord) : Records.ServedRecord :=
  { record_id := record.record_id, condition_name := none,
    diagnosis := some record.diagnosis, notes := none, severity := none }

/-- `filteredRecords` of the `Records` page (Records.js 84-89).  `toLowerCase` is
`String.prototype.toLowerCase`. -/
def Records.filteredRecords (toLowerCase : String → String)
    (userRecords : List Records.ServedRecord) (searchTerm : String) :
    List Records.ServedRecord :=
  userRecords.filter (fun record =>
    fieldMatches toLowerCase record.condition_name (toLowerCase searchTerm) ||
    fieldMatches toLowerCase record.diagnosis (toLowerCase searchTerm) ||
    fieldMatches toLowerCase record.notes (toLowerCase searchTerm) ||
    fieldMatches toLowerCase record.severity (toLowerCase searchTerm))

/-- The summary line of the `Records` page (Records.js 246-252), rendered only when at
least one record is shown; `none` when it is not rendered. -/
def Records.statsSummary (toLowerCase : String → String)
    (userRecords : List Records.ServedRecord) (searchTerm : String) : Option String :=
  if (Records.filteredRecords toLowerCase userRecords searchTerm).length > 0 then
    some ("Showing " ++
      toString (Records.filteredRecords toLowerCase userRecords searchTerm).length ++
      " of " ++ toString userRecords.length ++ " records")
  else none

/-- The record carries at least one of the four fields the search predicate reads. -/
def Records.hasSearchField (record : Records.ServedRecord) : Bool :=
  record.condition_name.isSome || record.diagnosis.isSome || record.notes.isSome ||
    record.severity.isSome

theorem stringIncludes_empty (s : String) : stringIncludes s "" = true := by
  simp [stringIncludes]

theorem fieldMatches_empty (toLowerCase : String → String) (field : Option String) :
    fieldMatches toLowerCase field "" = field.isSome := by
  cases field <;> simp [fieldMatches, stringIncludes_empty]

theorem filteredRecords_empty_eq_filter (toLowerCase : String → String)
    (userRecords : List Records.ServedRecord) (hlower : toLowerCase "" = "") :
    Records.filteredRecords toLowerCase userRecords "" =
      userRecords.filter Records.hasSearchField := by
  unfold Records.filteredRecords
  apply List.filter_congr
  intro r _
  simp only [hlower, fieldMatches_empty, Records.hasSearchField]

/-- A `toLowerCase` for the examples: the ASCII letters are lowered one by one. -/
def sampleToLowerCase (s : String) : String :=
  String.mk (s.data.map Char.toLower)

/-- A served record that carries none of the four fields of the search predicate. -/
def sampleBareRecord : Records.ServedRecord :=
  { record_id := 13, condition_name := none, diagnosis := none, notes := none,
    severity := none }

/-- C28, as the code has it: with an empty search term no record that carries a diagnosis (or
a condition name, notes or a severity) is hidden.  When every record of the list carries one
of these fields, as every record of the data model does, `filteredRecords` equals
`userRecords`, and the summary reads "Showing N of N records" when the list is non-empty;
for the empty list no summary is rendered. -/
theorem filteredRecords_empty_search (toLowerCase : String → String)
    (userRecords : List Records.ServedRecord) (hlower : toLowerCase "" = "")
    (hfields : ∀ r ∈ userRecords, Records.hasSearchField r = true) :
    Records.filteredRecords toLowerCase userRecords "" = userRecords ∧
    (userRecords ≠ [] →
      Records.statsSummary toLowerCase userRecords "" =
        some ("Showing " ++ toString userRecords.length ++ " of " ++
          toString userRecords.length ++ " records")) ∧
    (userRecords = [] → Records.statsSummary toLowerCase userRecords "" = none) ∧
    (∀ records : List HealthRecord,
      Records.filteredRecords toLowerCase (records.map HealthRecord.served) "" =
        records.map HealthRecord.served) := by
  have hall : Records.filteredRecords toLowerCase userRecords "" = userRecords := by
    rw [filteredRecords_empty_eq_filter toLowerCase userRecords hlower, List.filter_eq_self]
    exact hfields
  refine ⟨hall, ?_, ?_, ?_⟩
  · intro hne
    have hpos : userRecords.length > 0 := List.length_pos.2 hne
    simp only [Records.statsSummary, hall, hpos, if_true]
  · intro hnil
    subst hnil
    rfl
  · intro records
    rw [filteredRecords_empty_eq_filter toLowerCase _ hlower, List.filter_eq_self]
    intro r hr
    obtain ⟨r0, _, rfl⟩ := List.mem_map.1 hr
    rfl

/-- Instance of C28: two records of the data model, no search term,
"Showing 2 of 2 records". -/
theorem filteredRecords_empty_search_witness :
    sampleToLowerCase "" = "" ∧
    (∀ r ∈ [sampleRecord10.served, sampleRecord11.served],
      Records.hasSearchField r = true) ∧
    Records.filteredRecords sampleToLowerCase [sampleRecord10.served, sampleRecord11.served]
        "" = [sampleRecord10.served, sampleRecord11.served] ∧
    Records.statsSummary sampleToLowerCase [sampleRecord10.served, sampleRecord11.served]
        "" = some "Showing 2 of 2 records" := by
  have hfields : ∀ r ∈ [sampleRecord10.served, sampleRecord11.served],
      Records.hasSearchField r = true := by decide
  have h := filteredRecords_empty_search sampleToLowerCase
    [sampleRecord10.served, sampleRecord11.served] rfl hfields
  refine ⟨rfl, hfields, h.1, ?_⟩
  rw [h.2.1 (by decide)]
  decide

/-- C28 fails as stated.  For the empty list, `filteredRecords` is empty and no summary is
rendered, so nothing reads "Showing 0 of 0 records"; and a record that carries no diagnosis
(nor any of the three other fields) is hidden by the empty search term: of three records two
are shown. -/
theorem filteredRecords_empty_search_counterexample :
    Records.statsSummary sampleToLowerCase [] "" = none ∧
    Records.filteredRecords sampleToLowerCase
        [sampleRecord10.served, sampleBareRecord, sampleRecord11.served] "" =
      [sampleRecord10.served, sampleRecord11.served] ∧
    Records.filteredRecords sampleToLowerCase
        [sampleRecord10.served, sampleBareRecord, sampleRecord11.served] "" ≠
      [sampleRecord10.served, sampleBareRecord, sampleRecord11.served] ∧
    Records.statsSummary sampleToLowerCase
        [sampleRecord10.served, sampleBareRecord, sampleRecord11.served] "" =
      some "Showing 2 of 3 records" := by
  refine ⟨by decide, by decide, by decide, by decide⟩

/-! ## Voice dictation of a doctor: the transcript of `VoiceAddDoctorModal` -/

/-- One entry of `event.results`: the transcript of its first alternative and its `isFinal`
flag. -/
structure SpeechResult where
  transcript : String
  isFinal : Bool
  deriving DecidableEq, Repr

/-- The loop of `onresult` over `event.results` (VoiceAddDoctorModal.js 36-47): the pair
`(interimTranscript, currentFinalTranscript)` it leaves. -/
def VoiceAddDoctorModal.scanResults (results : List SpeechResult) : String × String :=
  results.foldl
    (fun acc result =>
      if result.isFinal then (acc.1, acc.2 ++ (result.transcript ++ " "))
      else (acc.1 ++ result.transcript, acc.2))
    ("", "")

/-- `s.split('|')[0]`: the part of `s` before its first `|`. -/
def beforeBar (s : String) : String :=
  String.mk (s.data.takeWhile (fun c => c != '|'))

/-- The transcript `recognitionInstance.onresult` sets (VoiceAddDoctorModal.js 35-54), from
the previous transcript and the results of the event:
`currentFinalTranscript || prev.split('|')[0] || ''`, then the interim text. -/
def VoiceAddDoctorModal.onresult (prev : String) (results : List SpeechResult) : String :=
  let interimTranscript := (VoiceAddDoctorModal.scanResults results).1
  let currentFinalTranscript := (VoiceAddDoctorModal.scanResults results).2
  let base :=
    if currentFinalTranscript ≠ "" then currentFinalTranscript
    else if beforeBar prev ≠ "" then beforeBar prev
    else ""
  base ++ interimTranscript

/-- Concatenation of a list of strings. -/
def concatStrings : List String → String
  | [] => ""
  | s :: rest => s ++ concatStrings rest

/-- What the claim calls the final text of an event: every final segment followed by one
space, in order. -/
def finalText (results : List SpeechResult) : String :=
  concatStrings ((results.filter (fun r => r.isFinal)).map (fun r => r.transcript ++ " "))

/-- What the claim calls the interim text of an event: the interim segments, in order. -/
def interimText (results : List SpeechResult) : String :=
  concatStrings ((results.filter (fun r => !r.isFinal)).map (fun r => r.transcript))

theorem scanResults_foldl (results : List SpeechResult) (acc : String × String) :
    results.foldl
      (fun acc result =>
        if result.isFinal then (acc.1, acc.2 ++ (result.transcript ++ " "))
        else (acc.1 ++ result.transcript, acc.2))
      acc = (acc.1 ++ interimText results, acc.2 ++ finalText results) := by
  induction results generalizing acc with
  | nil => simp [interimText, finalText, concatStrings, String.append_empty]
  | cons r rest ih =>
    rw [List.foldl_cons, ih]
    cases hr : r.isFinal
    · simp [interimText, finalText, concatStrings, hr, String.append_assoc]
    · simp [interimText, finalText, concatStrings, hr, String.append_assoc]

theorem scanResults_eq (results : List SpeechResult) :
    VoiceAddDoctorModal.scanResults results = (interimText results, finalText results) := by
  unfold VoiceAddDoctorModal.scanResults
  rw [scanResults_foldl]
  simp [String.empty_append]

theorem finalText_eq_empty_iff (results : List SpeechResult) :
    finalText results = "" ↔ results.any (fun r => r.isFinal) = false := by
  induction results with
  | nil => simp [finalText, concatStrings]
  | cons r rest ih =>
    cases hr : r.isFinal
    · have h : finalText (r :: rest) = finalText rest := by
        simp [finalText, hr]
      rw [h, ih]
      simp [hr]
    · have h : finalText (r :: rest) = (r.transcript ++ " ") ++ finalText rest := by
        simp [finalText, hr, concatStrings]
      rw [h]
      simp only [List.any_cons, hr, Bool.true_or]
      constructor
      · intro hempty
        have hdata := congrArg String.data hempty
        simp [String.data_append] at hdata
      · intro hfalse
        cases hfalse

/-- C22, on the code: when the event carries a final segment the transcript is the final
text followed by the interim text, whatever the previous transcript; when it carries none,
the transcript is the previous transcript up to its first `|`, followed by the interim
text, so that after "he" the interim result "hel" gives "hehel". -/
theorem onresult_transcript (prev : String) (results : List SpeechResult) :
    VoiceAddDoctorModal.onresult prev results =
      (if results.any (fun r => r.isFinal) then finalText results else beforeBar prev) ++
        interimText results ∧
    VoiceAddDoctorModal.onresult "he" [{ transcript := "hel", isFinal := false }] = "hehel" ∧
    finalText [{ transcript := "hel", isFinal := false }] ++
      interimText [{ transcript := "hel", isFinal := false }] = "hel" ∧
    VoiceAddDoctorModal.onresult "" [{ transcript := "hel", isFinal := false }] = "hel" := by
  refine ⟨?_, by decide, by decide, by decide⟩
  unfold VoiceAddDoctorModal.onresult
  simp only [scanResults_eq]
  cases hany : results.any (fun r => r.isFinal)
  · have hempty := (finalText_eq_empty_iff results).2 hany
    by_cases hb : beforeBar prev = ""
    · simp [hempty, hb]
    · simp [hempty, hb]
  · have hne : finalText results ≠ "" := by
      intro h
      rw [(finalText_eq_empty_iff results).1 h] at hany
      cases hany
    simp [hne]

/-! ## Saving a dictated record: `VoiceRecordModal.handleSave` -/

/-- The `parsed_data` object of the voice parser as the modal holds it; `none` is a missing,
`null` or otherwise falsy-by-absence field (`NaN` for `doctor_id`). -/
structure VoiceRecordModal.ParsedData where
  doctor_id : Option Int
  diagnosis : Option String
  date : Option String
  medication : Option String
  dosage : Option String
  follow_up_date : Option String
  deriving DecidableEq, Repr

/-- State of `VoiceRecordModal` (VoiceRecordModal.js 6-11). -/
structure VoiceRecordModal.State where
  isListening : Bool
  transcript : String
  isProcessing : Bool
  parsedData : Option VoiceRecordModal.ParsedData
  error : String
  doctors : List Doctor
  deriving DecidableEq, Repr

/-- `recordData` sent to `addHealthRecord` (VoiceRecordModal.js 105-111). -/
structure VoiceRecordModal.RecordData where
  user_id : Int
  doctor_id : Option Int
  diagnosis : String
  record_date : String
  file_path : Option String
  deriving DecidableEq, Repr

/-- `treatmentData` sent to `addTreatment` (VoiceRecordModal.js 120-125). -/
structure VoiceRecordModal.TreatmentData where
  record_id : Int
  medication : String
  procedure : String
  follow_up_date : Option String
  deriving DecidableEq, Repr

/-- The part of the `addHealthRecord` response `handleSave` reads: `record_id`, `none` when
the response carries none. -/
structure VoiceRecordModal.RecordResponse where
  record_id : Option Int
  deriving DecidableEq, Repr

/-- Requests and callbacks of `handleSave`, in the order they happen. -/
inductive VoiceRecordModal.Effect where
  | addHealthRecord (recordData : VoiceRecordModal.RecordData)
  | addTreatment (treatmentData : VoiceRecordModal.TreatmentData)
  | onSuccess (message : String)
  | onClose
  deriving DecidableEq, Repr

/-- Truthiness of an optional string: present and non-empty. -/
def truthyString (x : Option String) : Bool :=
  match x with
  | some s => s != ""
  | none => false

/-- `x || null` for an optional number: `0` is falsy. -/
def numberOrNull (x : Option Int) : Option Int :=
  match x with
  | some n => if n = 0 then none else some n
  | none => none

/-- `x || null` for an optional string: the empty string is falsy. -/
def stringOrNull (x : Option String) : Option String :=
  match x with
  | some s => if s = "" then none else some s
  | none => none

/-- `VoiceRecordModal.handleClose` (VoiceRecordModal.js 143-150): the state it leaves. -/
def VoiceRecordModal.handleClose (s : VoiceRecordModal.State) : VoiceRecordModal.State :=
  { s with transcript := "", parsedData := none, error := "", isListening := false,
           isProcessing := false }

/-- `VoiceRecordModal.handleSave` (VoiceRecordModal.js 86-141).  `today` is
`new Date().toISOString().split('T')[0]`; `recordResponse` and `treatmentResponse` are the
outcomes of the two requests, the second one consulted only if the request is made. -/
def VoiceRecordModal.handleSave {β : Type} (s : VoiceRecordModal.State) (userId : Int)
    (today : String) (recordResponse : Response VoiceRecordModal.RecordResponse)
    (treatmentResponse : Response β) :
    VoiceRecordModal.State × List VoiceRecordModal.Effect :=
  match s.parsedData with
  | none => (s, [])
  | some parsedData =>
    if truthyString parsedData.diagnosis then
      let recordData : VoiceRecordModal.RecordData :=
        { user_id := userId
          doctor_id := numberOrNull parsedData.doctor_id
          diagnosis := parsedData.diagnosis.getD ""
          record_date := messageOr parsedData.date today
          file_path := none }
      match addHealthRecord recordResponse with
      | .ok response =>
        if truthyString parsedData.medication && (numberOrNull response.record_id).isSome then
          let treatmentData : VoiceRecordModal.TreatmentData :=
            { record_id := response.record_id.getD 0
              medication := parsedData.medication.getD ""
              procedure := messageOr parsedData.dosage ""
              follow_up_date := stringOrNull parsedData.follow_up_date }
          match addTreatment treatmentResponse with
          | .ok _ =>
            (VoiceRecordModal.handleClose s,
              [.addHealthRecord recordData, .addTreatment treatmentData,
               .onSuccess "Health record added successfully from voice input!", .onClose])
          | .error message =>
            ({ s with
                isProcessing := false
                error := messageOr (some message) "Failed to save record. Please try again." },
              [.addHealthRecord recordData, .addTreatment treatmentData])
        else
          (VoiceRecordModal.handleClose s,
            [.addHealthRecord recordData,
             .onSuccess "Health record added successfully from voice input!", .onClose])
      | .error message =>
        ({ s with
            isProcessing := false
            error := messageOr (some message) "Failed to save record. Please try again." },
          [.addHealthRecord recordData])
    else
      ({ s with error := "Diagnosis is required. Please fill in the diagnosis field." }, [])

/-- The `addTreatment` requests among the effects of a handler, in order. -/
def VoiceRecordModal.treatmentRequests (effects : List VoiceRecordModal.Effect) :
    List VoiceRecordModal.TreatmentData :=
  effects.filterMap (fun effect =>
    match effect with
    | .addTreatment treatmentData => some treatmentData
    | _ => none)

/-- A dictated record with a diagnosis and a medication. -/
def sampleParsedData : VoiceRecordModal.ParsedData :=
  { doctor_id := some 5, diagnosis := some "Flu", date := some "2024-03-01",
    medication := some "Paracetamol", dosage := some "500mg", follow_up_date := none }

/-- The modal once the sample dictation has been parsed. -/
def sampleVoiceState : VoiceRecordModal.State :=
  { isListening := false, transcript := "flu, paracetamol", isProcessing := false,
    parsedData := some sampleParsedData, error := "", doctors := [sampleDoctor] }

/-- C23, as the code has it: with a non-empty diagnosis and a non-empty medication, a
`handleSave` whose `addHealthRecord` request succeeds with a response carrying a non-zero
`record_id` issues exactly one `addTreatment` request, for that `record_id` and that
medication; a response without a `record_id`, or with `record_id` 0, issues none; and when
the medication is missing or empty no treatment request is issued. -/
theorem handleSave_treatment {β : Type} (s : VoiceRecordModal.State)
    (parsedData : VoiceRecordModal.ParsedData) (userId : Int) (today : String)
    (diagnosis medication : String) (treatmentResponse : Response β)
    (hparsed : s.parsedData = some parsedData)
    (hdiagnosis : parsedData.diagnosis = some diagnosis) (hd : diagnosis ≠ "") :
    (∀ recordId, parsedData.medication = some medication → medication ≠ "" →
      recordId ≠ 0 →
      VoiceRecordModal.treatmentRequests
        (VoiceRecordModal.handleSave s userId today (.ok { record_id := some recordId })
          treatmentResponse).2 =
        [{ record_id := recordId, medication := medication,
           procedure := messageOr parsedData.dosage "",
           follow_up_date := stringOrNull parsedData.follow_up_date }]) ∧
    (∀ response, response.record_id = none ∨ response.record_id = some 0 →
      VoiceRecordModal.treatmentRequests
        (VoiceRecordModal.handleSave s userId today (.ok response) treatmentResponse).2 =
        []) ∧
    (parsedData.medication = none ∨ parsedData.medication = some "" →
      ∀ recordResponse,
        VoiceRecordModal.treatmentRequests
          (VoiceRecordModal.handleSave s userId today recordResponse treatmentResponse).2 =
          []) := by
  have htruthy : truthyString parsedData.diagnosis = true := by
    simp [truthyString, hdiagnosis, hd]
  refine ⟨?_, ?_, ?_⟩
  · intro recordId hmed hm hrid
    have hmt : truthyString (some medication) = true := by
      simp [truthyString, hm]
    cases treatmentResponse <;>
      simp [VoiceRecordModal.handleSave, hparsed, htruthy, hmt, addHealthRecord, addTreatment,
        numberOrNull, hrid, hmed, VoiceRecordModal.treatmentRequests]
  · intro response hresp
    have hnone : (numberOrNull response.record_id).isSome = false := by
      rcases hresp with h | h <;> simp [numberOrNull, h]
    simp [VoiceRecordModal.handleSave, hparsed, htruthy, addHealthRecord, hnone,
      VoiceRecordModal.treatmentRequests]
  · intro hmed recordResponse
    have hmt : truthyString parsedData.medication = false := by
      rcases hmed with h | h <;> simp [truthyString, h]
    cases recordResponse <;>
      simp [VoiceRecordModal.handleSave, hparsed, htruthy, hmt, addHealthRecord,
        VoiceRecordModal.treatmentRequests]

/-- Instance of C23 on the sample dictation: the record is created with id 42 and the
treatment request carries that id. -/
theorem handleSave_treatment_witness :
    sampleVoiceState.parsedData = some sampleParsedData ∧
    sampleParsedData.diagnosis = some "Flu" ∧ "Flu" ≠ "" ∧
    sampleParsedData.medication = some "Paracetamol" ∧ "Paracetamol" ≠ "" ∧
    VoiceRecordModal.treatmentRequests
      (VoiceRecordModal.handleSave (β := Unit) sampleVoiceState 1 "2024-03-02"
        (.ok { record_id := some 42 }) (.ok ())).2 =
      [{ record_id := 42, medication := "Paracetamol", procedure := "500mg",
         follow_up_date := none }] := by
  refine ⟨rfl, rfl, by decide, rfl, by decide, ?_⟩
  have h := (handleSave_treatment (β := Unit) sampleVoiceState sampleParsedData 1 "2024-03-02"
    "Flu" "Paracetamol" (.ok ()) rfl rfl (by decide)).1 42 rfl (by decide) (by decide)
  rw [h]
  decide

/-- C23 fails as stated: the diagnosis and the medication are non-empty and the
`addHealthRecord` request succeeds, with a response that carries no `record_id`; the record
request is the only request issued and no treatment is added. -/
theorem handleSave_treatment_counterexample :
    sampleParsedData.diagnosis = some "Flu" ∧
    sampleParsedData.medication = some "Paracetamol" ∧
    (VoiceRecordModal.handleSave (β := Unit) sampleVoiceState 1 "2024-03-02"
        (.ok { record_id := none }) (.ok ())).2 =
      [.addHealthRecord { user_id := 1, doctor_id := some 5, diagnosis := "Flu",
                          record_date := "2024-03-01", file_path := none },
       .onSuccess "Health record added successfully from voice input!", .onClose] ∧
    VoiceRecordModal.treatmentRequests
      (VoiceRecordModal.handleSave (β := Unit) sampleVoiceState 1 "2024-03-02"
        (.ok { record_id := none }) (.ok ())).2 = [] := by
  refine ⟨rfl, rfl, by decide, by decide⟩

/-! ## Registration: `Register.validateForm` and `Register.handleSubmit` -/

/-- A JavaScript number as far as a comparison with a constant needs it. -/
inductive JsNumber where
  | nan
  | negInfinity
  | finite (value : ℚ)
  | posInfinity
  deriving DecidableEq

/-- `x < bound` for a number `x`: false for `NaN`. -/
def JsNumber.lessThan (x : JsNumber) (bound : ℚ) : Bool :=
  match x with
  | .nan => false
  | .negInfinity => true
  | .finite value => decide (value < bound)
  | .posInfinity => false

/-- `x > bound` for a number `x`: false for `NaN`. -/
def JsNumber.greaterThan (x : JsNumber) (bound : ℚ) : Bool :=
  match x with
  | .nan => false
  | .negInfinity => false
  | .finite value => decide (bound < value)
  | .posInfinity => true

/-- White space and line terminators of ECMAScript, the characters `trim` removes. -/
def isJsWhitespace (c : Char) : Bool :=
  c.toNat == 0x09 || c.toNat == 0x0A || c.toNat == 0x0B || c.toNat == 0x0C ||
  c.toNat == 0x0D || c.toNat == 0x20 || c.toNat == 0xA0 || c.toNat == 0x1680 ||
  (0x2000 ≤ c.toNat && c.toNat ≤ 0x200A) || c.toNat == 0x2028 || c.toNat == 0x2029 ||
  c.toNat == 0x202F || c.toNat == 0x205F || c.toNat == 0x3000 || c.toNat == 0xFEFF

/-- `String.prototype.trim`. -/
def jsTrim (s : String) : String :=
  String.mk ((((s.data.dropWhile isJsWhitespace).reverse).dropWhile isJsWhitespace).reverse)

/-- `String.prototype.length`: the number of UTF-16 code units. -/
def jsLength (s : String) : Nat :=
  (s.data.map (fun c => if 0x10000 ≤ c.toNat then 2 else 1)).sum

/-- `formData` of the `Register` page (Register.js 6-14): the values of its inputs. -/
structure Register.FormData where
  name : String
  age : String
  gender : String
  contact_number : String
  email : String
  password : String
  confirmPassword : String
  deriving DecidableEq, Repr

/-- State of the `Register` page (Register.js 6-17). -/
structure Register.State where
  formData : Register.FormData
  loading : Bool
  error : String
  success : String
  deriving DecidableEq, Repr

/-- The condition of the age check,
`!formData.age || formData.age < 1 || formData.age > 120` (Register.js 31).  `toNumber` is
the conversion of a string to a number that the two comparisons apply. -/
def Register.ageInvalid (toNumber : String → JsNumber) (age : String) : Bool :=
  age == "" || (toNumber age).lessThan 1 || (toNumber age).greaterThan 120

/-- `Register.validateForm` (Register.js 29-38); `none` is `null`. -/
def Register.validateForm (toNumber : String → JsNumber) (formData : Register.FormData) :
    Option String :=
  if jsTrim formData.name = "" then some "Name is required"
  else if Register.ageInvalid toNumber formData.age then some "Valid age is required"
  else if jsTrim formData.contact_number = "" then some "Contact number is required"
  else if jsTrim formData.email = "" then some "Email is required"
  else if !stringIncludes formData.email "@" then some "Valid email is required"
  else if jsLength formData.password < 4 then some "Password must be at least 4 characters"
  else if formData.password ≠ formData.confirmPassword then some "Passwords do not match"
  else none

/-- Request and callback of `Register.handleSubmit`, in the order they happen. -/
inductive Register.Effect where
  | register (userData : Register.FormData)
  | onRegister
  deriving DecidableEq, Repr

/-- `Register.handleSubmit` (Register.js 40-61).  `hasOnRegister` tells whether the
`onRegister` prop was passed; without it `onRegister(user)` throws a `TypeError` inside the
`try` block, after `setSuccess`, and the `catch` block stores its message. -/
def Register.handleSubmit {α : Type} (toNumber : String → JsNumber) (s : Register.State)
    (hasOnRegister : Bool) (response : Response α) : Register.State × List Register.Effect :=
  match Register.validateForm toNumber s.formData with
  | some validationError => ({ s with error := validationError }, [])
  | none =>
    match register response with
    | .ok _ =>
      if hasOnRegister then
        ({ s with loading := false, error := "",
                  success := "Account created successfully! You can now sign in." },
          [.register s.formData, .onRegister])
      else
        ({ s with loading := false, error := "onRegister is not a function",
                  success := "Account created successfully! You can now sign in." },
          [.register s.formData])
    | .error message => ({ s with loading := false, error := message }, [.register s.formData])

/-- The `onRegister` prop of the `/register` route: `App` mounts `<Register />` without
props (App.js 69-74). -/
def App.registerHasOnRegister : Bool :=
  false

/-- A string-to-number conversion for the examples. -/
def sampleToNumber (s : String) : JsNumber :=
  if s = "30" then .finite 30
  else if s = "0" then .finite 0
  else if s = "121" then .finite 121
  else if s = "" then .finite 0
  else .nan

/-- A form that passes every check. -/
def sampleForm : Register.FormData :=
  { name := "Raj", age := "30", gender := "Male", contact_number := "100",
    email := "a@x.com", password := "pass", confirmPassword := "pass" }

theorem ageInvalid_eq_false_iff (toNumber : String → JsNumber) (age : String) :
    Register.ageInvalid toNumber age = false ↔
      age ≠ "" ∧ (toNumber age).lessThan 1 = false ∧
        (toNumber age).greaterThan 120 = false := by
  simp [Register.ageInvalid, and_assoc]

/-- The checks of `validateForm` one by one: the form is accepted exactly when no check
fails, otherwise the message is that of the first failing check; and what the age check
does for each kind of number. -/
theorem validateForm_checks (toNumber : String → JsNumber) (f : Register.FormData) :
    (Register.validateForm toNumber f = none ↔
      jsTrim f.name ≠ "" ∧ Register.ageInvalid toNumber f.age = false ∧
      jsTrim f.contact_number ≠ "" ∧ jsTrim f.email ≠ "" ∧
      stringIncludes f.email "@" = true ∧ 4 ≤ jsLength f.password ∧
      f.password = f.confirmPassword) ∧
    (jsTrim f.name = "" → Register.validateForm toNumber f = some "Name is required") ∧
    (jsTrim f.name ≠ "" → Register.ageInvalid toNumber f.age = true →
      Register.validateForm toNumber f = some "Valid age is required") ∧
    (jsTrim f.name ≠ "" → Register.ageInvalid toNumber f.age = false →
      jsTrim f.contact_number = "" →
      Register.validateForm toNumber f = some "Contact number is required") ∧
    (jsTrim f.name ≠ "" → Register.ageInvalid toNumber f.age = false →
      jsTrim f.contact_number ≠ "" → jsTrim f.email = "" →
      Register.validateForm toNumber f = some "Email is required") ∧
    (jsTrim f.name ≠ "" → Register.ageInvalid toNumber f.age = false →
      jsTrim f.contact_number ≠ "" → jsTrim f.email ≠ "" →
      stringIncludes f.email "@" = false →
      Register.validateForm toNumber f = some "Valid email is required") ∧
    (jsTrim f.name ≠ "" → Register.ageInvalid toNumber f.age = false →
      jsTrim f.contact_number ≠ "" → jsTrim f.email ≠ "" →
      stringIncludes f.email "@" = true → jsLength f.password < 4 →
      Register.validateForm toNumber f = some "Password must be at least 4 characters") ∧
    (jsTrim f.name ≠ "" → Register.ageInvalid toNumber f.age = false →
      jsTrim f.contact_number ≠ "" → jsTrim f.email ≠ "" →
      stringIncludes f.email "@" = true → 4 ≤ jsLength f.password →
      f.password ≠ f.confirmPassword →
      Register.validateForm toNumber f = some "Passwords do not match") ∧
    (∀ q, toNumber f.age = .finite q →
      (Register.ageInvalid toNumber f.age = false ↔ f.age ≠ "" ∧ 1 ≤ q ∧ q ≤ 120)) ∧
    (toNumber f.age = .posInfinity ∨ toNumber f.age = .negInfinity →
      Register.ageInvalid toNumber f.age = true) ∧
    (toNumber f.age = .nan → (Register.ageInvalid toNumber f.age = false ↔ f.age ≠ "")) := by
  refine ⟨?_, ?_, ?_, ?_, ?_, ?_, ?_, ?_, ?_, ?_, ?_⟩
  · unfold Register.validateForm
    by_cases h1 : jsTrim f.name = ""
    · simp [h1]
    by_cases h2 : Register.ageInvalid toNumber f.age = true
    · simp [h1, h2]
    by_cases h3 : jsTrim f.contact_number = ""
    · simp [h1, h2, h3]
    by_cases h4 : jsTrim f.email = ""
    · simp [h1, h2, h3, h4]
    by_cases h5 : stringIncludes f.email "@" = true
    · by_cases h6 : jsLength f.password < 4
      · simp [h1, h2, h3, h4, h5, h6]
      · by_cases h7 : f.password = f.confirmPassword
        · simp [h1, h2, h3, h4, h5, h6, h7]
        · simp [h1, h2, h3, h4, h5, h6, h7]
    · simp [h1, h2, h3, h4, h5]
  · intro h1
    simp [Register.validateForm, h1]
  · intro h1 h2
    simp [Register.validateForm, h1, h2]
  · intro h1 h2 h3
    simp [Register.validateForm, h1, h2, h3]
  · intro h1 h2 h3 h4
    simp [Register.validateForm, h1, h2, h3, h4]
  · intro h1 h2 h3 h4 h5
    simp [Register.validateForm, h1, h2, h3, h4, h5]
  · intro h1 h2 h3 h4 h5 h6
    simp [Register.validateForm, h1, h2, h3, h4, h5, h6]
  · intro h1 h2 h3 h4 h5 h6 h7
    have h6' : ¬ jsLength f.password < 4 := by omega
    simp [Register.validateForm, h1, h2, h3, h4, h5, h6', h7]
  · intro q hq
    rw [ageInvalid_eq_false_iff, hq]
    simp [JsNumber.lessThan, JsNumber.greaterThan]
  · rintro (h | h) <;> simp [Register.ageInvalid, h, JsNumber.lessThan, JsNumber.greaterThan]
  · intro h
    rw [ageInvalid_eq_false_iff, h]
    simp [JsNumber.lessThan, JsNumber.greaterThan]

/-- What the age field can hold.  It is an `<input type="number">` (Register.js 87-97) and
`formData.age` is only written from its value (Register.js 19-24): the empty string, or a
string that converts to a number. -/
def Register.isNumberInputValue (toNumber : String → JsNumber) (age : String) : Prop :=
  age = "" ∨ toNumber age ≠ .nan

/-- The age is a number between 1 and 120 inclusive. -/
def Register.ageInRange (toNumber : String → JsNumber) (age : String) : Prop :=
  age ≠ "" ∧ ∃ q, toNumber age = .finite q ∧ 1 ≤ q ∧ q ≤ 120

theorem ageInvalid_eq_false_iff_inRange (toNumber : String → JsNumber) (age : String)
    (hinput : Register.isNumberInputValue toNumber age) :
    Register.ageInvalid toNumber age = false ↔ Register.ageInRange toNumber age := by
  rw [ageInvalid_eq_false_iff]
  constructor
  · rintro ⟨hne, hlt, hgt⟩
    refine ⟨hne, ?_⟩
    cases hnum : toNumber age with
    | nan =>
      rcases hinput with h | h
      · exact absurd h hne
      · exact absurd hnum h
    | negInfinity =>
      rw [hnum] at hlt
      simp [JsNumber.lessThan] at hlt
    | finite q =>
      rw [hnum] at hlt hgt
      simp only [JsNumber.lessThan, JsNumber.greaterThan, decide_eq_false_iff_not, not_lt]
        at hlt hgt
      exact ⟨q, rfl, hlt, hgt⟩
    | posInfinity =>
      rw [hnum] at hgt
      simp [JsNumber.greaterThan] at hgt
  · rintro ⟨hne, q, hq, h1, h2⟩
    refine ⟨hne, ?_, ?_⟩
    · simp [hq, JsNumber.lessThan, h1]
    · simp [hq, JsNumber.greaterThan, h2]

theorem ageInvalid_eq_true_iff_not_inRange (toNumber : String → JsNumber) (age : String)
    (hinput : Register.isNumberInputValue toNumber age) :
    Register.ageInvalid toNumber age = true ↔ ¬Register.ageInRange toNumber age := by
  rw [← ageInvalid_eq_false_iff_inRange toNumber age hinput]
  simp

/-- C27: for the forms the page can hold (the age field is a number input),
`validateForm` returns null if and only if the name is non-blank after trimming, the age is
a number between 1 and 120 inclusive, the contact number is non-blank after trimming, the
email is non-blank and contains `@`, the password has at least 4 characters (code units of
`length`) and equals its confirmation; otherwise it returns the message of the first
failing check in that order.  In particular every age that is not a number in 1..120 is
rejected, with "Valid age is required" as soon as the name passes. -/
theorem validateForm_spec (toNumber : String → JsNumber) (f : Register.FormData)
    (hinput : Register.isNumberInputValue toNumber f.age) :
    (Register.validateForm toNumber f = none ↔
      jsTrim f.name ≠ "" ∧ Register.ageInRange toNumber f.age ∧
      jsTrim f.contact_number ≠ "" ∧ jsTrim f.email ≠ "" ∧
      stringIncludes f.email "@" = true ∧ 4 ≤ jsLength f.password ∧
      f.password = f.confirmPassword) ∧
    (jsTrim f.name = "" → Register.validateForm toNumber f = some "Name is required") ∧
    (jsTrim f.name ≠ "" → ¬Register.ageInRange toNumber f.age →
      Register.validateForm toNumber f = some "Valid age is required") ∧
    (jsTrim f.name ≠ "" → Register.ageInRange toNumber f.age →
      jsTrim f.contact_number = "" →
      Register.validateForm toNumber f = some "Contact number is required") ∧
    (jsTrim f.name ≠ "" → Register.ageInRange toNumber f.age →
      jsTrim f.contact_number ≠ "" → jsTrim f.email = "" →
      Register.validateForm toNumber f = some "Email is required") ∧
    (jsTrim f.name ≠ "" → Register.ageInRange toNumber f.age →
      jsTrim f.contact_number ≠ "" → jsTrim f.email ≠ "" →
      stringIncludes f.email "@" = false →
      Register.validateForm toNumber f = some "Valid email is required") ∧
    (jsTrim f.name ≠ "" → Register.ageInRange toNumber f.age →
      jsTrim f.contact_number ≠ "" → jsTrim f.email ≠ "" →
      stringIncludes f.email "@" = true → jsLength f.password < 4 →
      Register.validateForm toNumber f = some "Password must be at least 4 characters") ∧
    (jsTrim f.name ≠ "" → Register.ageInRange toNumber f.age →
      jsTrim f.contact_number ≠ "" → jsTrim f.email ≠ "" →
      stringIncludes f.email "@" = true → 4 ≤ jsLength f.password →
      f.password ≠ f.confirmPassword →
      Register.validateForm toNumber f = some "Passwords do not match") ∧
    (¬Register.ageInRange toNumber f.age → Register.validateForm toNumber f ≠ none) := by
  have hchecks := validateForm_checks toNumber f
  have hin := ageInvalid_eq_false_iff_inRange toNumber f.age hinput
  have hout := ageInvalid_eq_true_iff_not_inRange toNumber f.age hinput
  refine ⟨?_, hchecks.2.1, ?_, ?_, ?_, ?_, ?_, ?_, ?_⟩
  · rw [hchecks.1, hin]
  · intro h1 h2
    exact hchecks.2.2.1 h1 (hout.2 h2)
  · intro h1 h2
    exact hchecks.2.2.2.1 h1 (hin.2 h2)
  · intro h1 h2
    exact hchecks.2.2.2.2.1 h1 (hin.2 h2)
  · intro h1 h2
    exact hchecks.2.2.2.2.2.1 h1 (hin.2 h2)
  · intro h1 h2
    exact hchecks.2.2.2.2.2.2.1 h1 (hin.2 h2)
  · intro h1 h2
    exact hchecks.2.2.2.2.2.2.2.1 h1 (hin.2 h2)
  · intro h2 hnone
    have := (hchecks.1.1 hnone).2.1
    exact h2 (hin.1 this)

/-- Instance of C27: the sample form is accepted, and the ages "", "0" and "121" are each
rejected with "Valid age is required". -/
theorem validateForm_spec_witness :
    Register.isNumberInputValue sampleToNumber sampleForm.age ∧
    Register.ageInRange sampleToNumber sampleForm.age ∧
    Register.validateForm sampleToNumber sampleForm = none ∧
    Register.validateForm sampleToNumber { sampleForm with age := "" } =
      some "Valid age is required" ∧
    Register.validateForm sampleToNumber { sampleForm with age := "0" } =
      some "Valid age is required" ∧
    Register.validateForm sampleToNumber { sampleForm with age := "121" } =
      some "Valid age is required" := by
  have hinput : Register.isNumberInputValue sampleToNumber sampleForm.age :=
    Or.inr (by decide)
  have hrange : Register.ageInRange sampleToNumber sampleForm.age :=
    ⟨by decide, 30, by decide, by norm_num, by norm_num⟩
  refine ⟨hinput, hrange, ?_, ?_, ?_, ?_⟩
  · exact (validateForm_spec sampleToNumber sampleForm hinput).1.2
      ⟨by decide, hrange, by decide, by decide, by decide, by decide, rfl⟩
  · refine (validateForm_spec sampleToNumber { sampleForm with age := "" }
      (Or.inl rfl)).2.2.1 (by decide) ?_
    rintro ⟨hne, _⟩
    exact hne rfl
  · refine (validateForm_spec sampleToNumber { sampleForm with age := "0" }
      (Or.inr (by decide))).2.2.1 (by decide) ?_
    rintro ⟨_, q, hq, h1, _⟩
    have hq0 : sampleToNumber "0" = .finite 0 := by decide
    have : q = 0 := (JsNumber.finite.inj (hq.symm.trans hq0))
    rw [this] at h1
    norm_num at h1
  · refine (validateForm_spec sampleToNumber { sampleForm with age := "121" }
      (Or.inr (by decide))).2.2.1 (by decide) ?_
    rintro ⟨_, q, hq, _, h2⟩
    have hq121 : sampleToNumber "121" = .finite 121 := by decide
    have : q = 121 := (JsNumber.finite.inj (hq.symm.trans hq121))
    rw [this] at h2
    norm_num at h2

/-- A `Register` page holding the sample form, before submission. -/
def sampleRegisterState : Register.State :=
  { formData := sampleForm, loading := false, error := "", success := "" }

/-- C25, on the code: mounted by `App` without an `onRegister` prop, a `handleSubmit` whose
form passes `validateForm` and whose `register` request succeeds ends with the success
message set and `loading` false, and with `error` set to the message of the `TypeError`
that the call of the missing prop throws; with the prop passed, `error` is empty. -/
theorem handleSubmit_registered {α : Type} (toNumber : String → JsNumber)
    (s : Register.State) (user : α) :
    (Register.handleSubmit toNumber s App.registerHasOnRegister (.ok user) =
      match Register.validateForm toNumber s.formData with
      | some validationError => ({ s with error := validationError }, [])
      | none =>
        ({ s with loading := false, error := "onRegister is not a function",
                  success := "Account created successfully! You can now sign in." },
          [.register s.formData])) ∧
    (Register.handleSubmit toNumber s true (.ok user) =
      match Register.validateForm toNumber s.formData with
      | some validationError => ({ s with error := validationError }, [])
      | none =>
        ({ s with loading := false, error := "",
                  success := "Account created successfully! You can now sign in." },
          [.register s.formData, .onRegister])) ∧
    Register.validateForm sampleToNumber sampleRegisterState.formData = none ∧
    (Register.handleSubmit (α := Unit) sampleToNumber sampleRegisterState
        App.registerHasOnRegister (.ok ())).1 =
      { formData := sampleForm, loading := false, error := "onRegister is not a function",
        success := "Account created successfully! You can now sign in." } := by
  refine ⟨?_, ?_, by decide, by decide⟩
  · unfold Register.handleSubmit
    cases Register.validateForm toNumber s.formData <;> rfl
  · unfold Register.handleSubmit
    cases Register.validateForm toNumber s.formData <;> rfl

/-! ## The chatbot page: `Chatbot.handleSendMessage` -/

/-- The reply of the chatbot backend as `handleSendMessage` reads it. -/
structure Chatbot.Reply where
  response : String
  records_count : Option Int
  treatments_count : Option Int
  doctors_count : Option Int
  fallback : Option Bool
  deriving DecidableEq, Repr

/-- `metadata` of a bot message (Chatbot.js 87-92). -/
structure Chatbot.Metadata where
  records_count : Option Int
  treatments_count : Option Int
  doctors_count : Option Int
  fallback : Option Bool
  deriving DecidableEq, Repr

/-- A message of the conversation (Chatbot.js 68-73, 82-93, 98-103), without its
timestamp; `fromBot` is `type === 'bot'`. -/
structure Chatbot.Message where
  id : Nat
  message : String
  fromBot : Bool
  metadata : Option Chatbot.Metadata
  deriving DecidableEq, Repr

/-- State of the `Chatbot` page (Chatbot.js 10-13). -/
structure Chatbot.State where
  messages : List Chatbot.Message
  inputMessage : String
  isLoading : Bool
  userData : Option UserWithoutPassword
  deriving DecidableEq, Repr

/-- `apiService.chatbotQuery`: the object literal `apiService` (api.js 47-360) defines the
operations from `getUsers` to `parseVoiceDoctor` and no `chatbotQuery`, so the property is
`undefined` (`none`) and calling it throws a `TypeError`. -/
def chatbotQuery : Option (Response Chatbot.Reply → Except String Chatbot.Reply) :=
  none

/-- The message appended by the `catch` block of `handleSendMessage` (Chatbot.js 98-103). -/
def Chatbot.apology (id : Nat) : Chatbot.Message :=
  { id := id
    message := "I apologize, but I\x27m having trouble processing your request right now. Please try again in a moment."
    fromBot := true
    metadata := none }

/-- `Chatbot.handleSendMessage` (Chatbot.js 65-108).  `backend` is what the chatbot backend
would answer to the query. -/
def Chatbot.handleSendMessage (s : Chatbot.State) (backend : Response Chatbot.Reply) :
    Chatbot.State :=
  if jsTrim s.inputMessage = "" || s.isLoading then s
  else
    let userMessage : Chatbot.Message :=
      { id := s.messages.length + 1, message := s.inputMessage, fromBot := false,
        metadata := none }
    let sent := s.messages ++ [userMessage]
    let outcome : Except String Chatbot.Reply :=
      match s.userData, chatbotQuery with
      | some _, some query => query backend
      | _, _ => .error "TypeError"
    match outcome with
    | .ok response =>
      { s with
          messages := sent ++
            [{ id := s.messages.length + 2, message := response.response, fromBot := true,
               metadata := some
                 { records_count := response.records_count
                   treatments_count := response.treatments_count
                   doctors_count := response.doctors_count
                   fallback := response.fallback } }]
          inputMessage := ""
          isLoading := false }
    | .error _ =>
      { s with
          messages := sent ++ [Chatbot.apology (s.messages.length + 2)]
          inputMessage := ""
          isLoading := false }

/-- A reply of the backend. -/
def sampleReply : Chatbot.Reply :=
  { response := "You have 2 records.", records_count := some 2, treatments_count := some 1,
    doctors_count := some 1, fallback := some false }

/-- A chatbot page with a question typed in. -/
def sampleChatState : Chatbot.State :=
  { messages := [], inputMessage := "How many records do I have?", isLoading := false,
    userData := some sampleSessionUser }

/-- C26, on the code: for a non-blank input sent while not loading, `handleSendMessage`
appends the user's message and then the apology message, whatever the backend would have
answered: `apiService` has no `chatbotQuery`, the call throws, and the reply of the backend
is never shown. -/
theorem handleSendMessage_reply (s : Chatbot.State) (backend : Response Chatbot.Reply) :
    Chatbot.handleSendMessage s backend =
      (if jsTrim s.inputMessage = "" ∨ s.isLoading = true then s
       else
        { s with
            messages := s.messages ++
              [{ id := s.messages.length + 1, message := s.inputMessage, fromBot := false,
                 metadata := none },
               Chatbot.apology (s.messages.length + 2)]
            inputMessage := ""
            isLoading := false }) ∧
    (Chatbot.handleSendMessage sampleChatState (.ok sampleReply)).messages =
      [{ id := 1, message := "How many records do I have?", fromBot := false,
         metadata := none },
       Chatbot.apology 2] ∧
    Chatbot.apology 2 ≠
      { id := 2, message := sampleReply.response, fromBot := true,
        metadata := some { records_count := some 2, treatments_count := some 1,
                           doctors_count := some 1, fallback := some false } } := by
  refine ⟨?_, by decide, by decide⟩
  unfold Chatbot.handleSendMessage
  by_cases h : jsTrim s.inputMessage = "" ∨ s.isLoading = true
  · have h' : (decide (jsTrim s.inputMessage = "") || s.isLoading) = true := by
      simpa using h
    rw [if_pos h', if_pos h]
  · have h' : ¬ (decide (jsTrim s.inputMessage = "") || s.isLoading) = true := by
      simpa using h
    rw [if_neg h', if_neg h]
    cases s.userData <;> simp [chatbotQuery]

/-! ## Editing a record: `EditRecordModal` -/

/-- A JSON value of a payload field: `null`, a number or a string. -/
inductive JsValue where
  | null
  | number (n : Int)
  | string (s : String)
  deriving DecidableEq, Repr

/-- `formData` of `EditRecordModal` (EditRecordModal.js 5-10), which is also the payload of
`updateHealthRecord`: `doctor_id` holds the record's number or a string of the select. -/
structure EditRecordModal.FormData where
  doctor_id : JsValue
  diagnosis : String
  record_date : String
  file_path : String
  deriving DecidableEq, Repr

/-- State of `EditRecordModal` (EditRecordModal.js 5-12). -/
structure EditRecordModal.State where
  formData : EditRecordModal.FormData
  error : String
  isSubmitting : Bool
  deriving DecidableEq, Repr

/-- Requests and callbacks of `EditRecordModal.handleSubmit`, in the order they happen. -/
inductive EditRecordModal.Effect where
  | updateHealthRecord (recordId : Int) (recordData : EditRecordModal.FormData)
  | onSuccess (message : String)
  | onClose
  deriving DecidableEq, Repr

/-- The initialisation effect of `EditRecordModal` (EditRecordModal.js 14-23): every field
is `record.field || ''`. -/
def EditRecordModal.initFormData (record : HealthRecord) : EditRecordModal.FormData :=
  { doctor_id :=
      match record.doctor_id with
      | some n => if n = 0 then .string "" else .number n
      | none => .string ""
    diagnosis := record.diagnosis
    record_date := record.record_date
    file_path :=
      match record.file_path with
      | some path => path
      | none => "" }

/-- State of the modal once opened on `record`. -/
def EditRecordModal.opened (record : HealthRecord) : EditRecordModal.State :=
  { formData := EditRecordModal.initFormData record, error := "", isSubmitting := false }

/-- `EditRecordModal.handleSubmit` (EditRecordModal.js 25-44). -/
def EditRecordModal.handleSubmit {α : Type} (s : EditRecordModal.State)
    (record : HealthRecord) (response : Response α) :
    EditRecordModal.State × List EditRecordModal.Effect :=
  if jsTrim s.formData.diagnosis = "" then
    ({ s with error := "Diagnosis is required" }, [])
  else
    match updateHealthRecord response with
    | .ok _ =>
      ({ s with error := "", isSubmitting := false },
        [.updateHealthRecord record.record_id s.formData,
         .onSuccess "Health record updated successfully!", .onClose])
    | .error message =>
      ({ s with error := messageOr (some message) "Failed to update health record",
                isSubmitting := false },
        [.updateHealthRecord record.record_id s.formData])

/-- The `doctor_id` of a record as a JSON value. -/
def HealthRecord.doctorIdValue (record : HealthRecord) : JsValue :=
  match record.doctor_id with
  | some n => .number n
  | none => .null

/-- The `file_path` of a record as a JSON value. -/
def HealthRecord.filePathValue (record : HealthRecord) : JsValue :=
  match record.file_path with
  | some path => .string path
  | none => .null

/-- C29, on the code: submitting the modal unchanged sends the record's own `diagnosis` and
`record_date`, its `doctor_id` when that is a non-zero number and its `file_path` when that
is a non-empty string; for a record with no doctor the payload carries the empty string as
`doctor_id`, and for a record with no file the empty string as `file_path`, not `null`.
Record 12, which has neither, is sent with both fields empty strings. -/
theorem editRecord_unchanged_payload (record : HealthRecord) :
    (EditRecordModal.initFormData record).diagnosis = record.diagnosis ∧
    (EditRecordModal.initFormData record).record_date = record.record_date ∧
    (∀ n, record.doctor_id = some n → n ≠ 0 →
      (EditRecordModal.initFormData record).doctor_id = record.doctorIdValue) ∧
    (∀ path, record.file_path = some path →
      JsValue.string (EditRecordModal.initFormData record).file_path =
        record.filePathValue) ∧
    (record.doctor_id = none →
      (EditRecordModal.initFormData record).doctor_id = .string "" ∧
      (EditRecordModal.initFormData record).doctor_id ≠ record.doctorIdValue) ∧
    (record.file_path = none →
      (EditRecordModal.initFormData record).file_path = "" ∧
      JsValue.string (EditRecordModal.initFormData record).file_path ≠
        record.filePathValue) ∧
    (EditRecordModal.handleSubmit (α := Unit) (EditRecordModal.opened sampleRecord12)
        sampleRecord12 (.ok ())).2 =
      [.updateHealthRecord 12
          { doctor_id := .string "", diagnosis := "Checkup", record_date := "2024-01-01",
            file_path := "" },
        .onSuccess "Health record updated successfully!", .onClose] ∧
    sampleRecord12.doctorIdValue = .null ∧ sampleRecord12.filePathValue = .null := by
  refine ⟨rfl, rfl, ?_, ?_, ?_, ?_, by decide, rfl, rfl⟩
  · intro n hn hne
    simp [EditRecordModal.initFormData, HealthRecord.doctorIdValue, hn, hne]
  · intro path hp
    simp [EditRecordModal.initFormData, HealthRecord.filePathValue, hp]
  · intro hn
    simp [EditRecordModal.initFormData, HealthRecord.doctorIdValue, hn]
  · intro hp
    simp [EditRecordModal.initFormData, HealthRecord.filePathValue, hp]

end LifeTrack
